import Mathlib

/-!
Verification of the METAR decoder (metar.cpp) against its specification.

The development shallowly embeds the C++ decoder: tokens are lists of
characters, the mutable `Metar` object becomes an explicit state record
threaded through a fold over the token list, C `double` values become
rationals, and sentinel-initialised fields (`INT_MIN` / `DBL_MAX`, whose
presence accessors test against the sentinel) become `Option` fields.
-/

attribute [local semireducible] Rat.mul Rat.add Rat.sub Rat.inv

namespace MetarSpec

/-- A whitespace-delimited token of the report, as produced by strtok. -/
abbrev Tok := List Char

/-- One character of a shape pattern: a digit wildcard, a letter wildcard,
or a literal character (match_character in metar.cpp). -/
def matchChar (p c : Char) : Bool :=
  if p = '#' then c.isDigit
  else if p = '$' then c.isAlpha
  else p = c

/-- Equal-length charwise pattern match (match(pattern, str) in metar.cpp,
which requires strlen equality before comparing). -/
def matchChars : List Char → List Char → Bool
  | [], [] => true
  | p :: ps, c :: cs => matchChar p c && matchChars ps cs
  | _, _ => false

/-- Pattern matches a prefix of the string (starts_with in metar.cpp:
pattern length at most string length, charwise match on the pattern). -/
def matchPre : List Char → List Char → Bool
  | [], _ => true
  | _ :: _, [] => false
  | p :: ps, c :: cs => matchChar p c && matchPre ps cs

/-- Numeric value of a digit string, most significant first. -/
def natOfDigits (l : List Char) : Nat :=
  l.foldl (fun a c => a * 10 + (c.toNat - 48)) 0

/-- The leading run of decimal digits of a token. -/
def leadDigits (l : List Char) : List Char := l.takeWhile Char.isDigit

/-- C atoi on the strings this decoder feeds it: an optional leading minus
sign then the leading digit run; anything else contributes nothing. -/
def atoi (s : List Char) : Int :=
  if s.headD ' ' = '-' then - (natOfDigits (leadDigits (s.drop 1)) : Int)
  else (natOfDigits (leadDigits s) : Int)

/-- C atof on the strings this decoder feeds it (no decimal point or
exponent ever appears in them): optional minus then the digit run. -/
def atof (s : List Char) : ℚ :=
  if s.headD ' ' = '-' then - (natOfDigits (leadDigits (s.drop 1)) : ℚ)
  else (natOfDigits (leadDigits s) : ℚ)

/-- Index of the first occurrence of pat as a contiguous substring
(strstr), none when absent. -/
def findSub (pat : List Char) : List Char → Option Nat
  | [] => if pat.isEmpty then some 0 else none
  | c :: rest =>
    if pat.isPrefixOf (c :: rest) then some 0
    else (findSub pat rest).map (· + 1)

/-- Wind speed units (WIND_SPEED_KT / _MPS / _KPH string constants). -/
inductive SpeedUnit | KT | MPS | KPH
deriving DecidableEq

/-- Visibility units (VIS_UNITS_M / VIS_UNITS_SM string constants). -/
inductive DistUnit | M | SM
deriving DecidableEq

/-- Sky cover codes, in the order of the sky_conditions array. -/
inductive Cover | SKC | CLR | NSC | FEW | SCT | BKN | OVC
deriving DecidableEq

/-- Cloud type codes, in the order of the cloud_types array. -/
inductive CloudKind | TCU | CB | ACC
deriving DecidableEq

def coverChars : Cover → List Char
  | .SKC => ['S', 'K', 'C']
  | .CLR => ['C', 'L', 'R']
  | .NSC => ['N', 'S', 'C']
  | .FEW => ['F', 'E', 'W']
  | .SCT => ['S', 'C', 'T']
  | .BKN => ['B', 'K', 'N']
  | .OVC => ['O', 'V', 'C']

/-- The sky_conditions array. -/
def coverList : List Cover :=
  [.SKC, .CLR, .NSC, .FEW, .SCT, .BKN, .OVC]

def cloudKindChars : CloudKind → List Char
  | .TCU => ['T', 'C', 'U']
  | .CB => ['C', 'B']
  | .ACC => ['A', 'C', 'C']

/-- The cloud_types array. -/
def cloudKindList : List CloudKind := [.TCU, .CB, .ACC]

/-- One decoded cloud layer (SkyConditionImpl): cover code, optional
altitude in feet, optional cloud type. -/
structure SkyCond where
  cond : Cover
  alt : Option Int
  cloudType : Option CloudKind
deriving DecidableEq

/-- The decoder state: every field of the Metar object that parse()
mutates.  Sentinel-valued C fields (INT_MIN / DBL_MAX / null pointer,
tested by the has* accessors) are Option; doubles are rationals.
prev models the _previous_element pointer. -/
structure MetarState where
  metarType : Option Tok
  icao : Option Tok
  day : Option Int
  hour : Option Int
  minute : Option Int
  windDir : Option Int
  windSpd : Option Int
  gust : Option Int
  windUnits : Option SpeedUnit
  minWindDir : Option Int
  maxWindDir : Option Int
  vrb : Bool
  vis : Option ℚ
  visUnits : Option DistUnit
  visLt : Bool
  cavok : Bool
  layers : List SkyCond
  vertVis : Option Int
  temp : Option Int
  dew : Option Int
  altimeterA : Option ℚ
  altimeterQ : Option Int
  slp : Option ℚ
  ftemp : Option ℚ
  fdew : Option ℚ
  prev : Option Tok
deriving DecidableEq

/-- The freshly constructed Metar object (constructor initialiser list:
every field at its sentinel, no layers, null previous element). -/
def initState : MetarState where
  metarType := none
  icao := none
  day := none
  hour := none
  minute := none
  windDir := none
  windSpd := none
  gust := none
  windUnits := none
  minWindDir := none
  maxWindDir := none
  vrb := false
  vis := none
  visUnits := none
  visLt := false
  cavok := false
  layers := []
  vertVis := none
  temp := none
  dew := none
  altimeterA := none
  altimeterQ := none
  slp := none
  ftemp := none
  fdew := none
  prev := none

/-- is_metar: the literal tokens METAR or SPECI. -/
def is_metar (s : Tok) : Bool := s = "METAR".data || s = "SPECI".data

/-- is_icao: exactly four alphabetic characters. -/
def is_icao (s : Tok) : Bool := matchChars "$$$$".data s

/-- is_ot (observation time): six digits then literal Z. -/
def is_ot (s : Tok) : Bool := matchChars "######Z".data s

/-- is_wind: five leading digits (the other two digit disjuncts of the
source are subsumed but kept verbatim), or a VRB prefix. -/
def is_wind (s : Tok) : Bool :=
  matchPre "#####".data s || matchPre "#####G##".data s ||
  matchPre "######G###".data s || matchPre "VRB".data s

/-- is_wind_var: three digits, V, three digits. -/
def is_wind_var (s : Tok) : Bool := matchChars "###V###".data s

/-- is_vis: the literal CAVOK; else, without an SM substring, exactly four
digits; with SM at the very end, a leading digit or M and then digits or
slashes up to the unit marker. -/
def is_vis (s : Tok) : Bool :=
  if s = "CAVOK".data then true
  else
    match findSub ['S', 'M'] s with
    | none => matchChars "####".data s
    | some p =>
      if s.length - p = 2 then
        ((s.headD ' ').isDigit || s.headD ' ' = 'M') &&
        ((s.drop 1).take (s.length - 3)).all (fun c => c.isDigit || c = '/')
      else false

/-- is_cloud_layer: the token starts with one of the seven cover codes. -/
def is_cloud_layer (s : Tok) : Bool :=
  coverList.any fun c => matchPre (coverChars c) s

/-- is_vert_vis: VV then three digits. -/
def is_vert_vis (s : Tok) : Bool := matchChars "VV###".data s

/-- is_temp: the five temperature/dew-point shapes of the source
(note the absence of an M##/## disjunct). -/
def is_temp (s : Tok) : Bool :=
  matchChars "##/##".data s || matchChars "##/M##".data s ||
  matchChars "M##/M##".data s || matchChars "##/".data s ||
  matchChars "M##/".data s

/-- is_altA: A then four digits. -/
def is_altA (s : Tok) : Bool := matchChars "A####".data s

/-- is_altQ: Q then four digits. -/
def is_altQ (s : Tok) : Bool := matchChars "Q####".data s

/-- is_slp: SLP then three digits. -/
def is_slp (s : Tok) : Bool := matchChars "SLP###".data s

/-- is_tempNA: T then eight digits. -/
def is_tempNA (s : Tok) : Bool := matchChars "T########".data s

def parse_metar (st : MetarState) (s : Tok) : MetarState :=
  { st with metarType := some s }

def parse_icao (st : MetarState) (s : Tok) : MetarState :=
  { st with icao := some s }

/-- parse_ot: two digits of day, two of hour, the remainder (digits before
the Z) of minute. -/
def parse_ot (st : MetarState) (s : Tok) : MetarState :=
  { st with
    day := some (atoi (s.take 2))
    hour := some (atoi ((s.drop 2).take 2))
    minute := some (atoi (s.drop 4)) }

/-- parse_wind: unit from an MPS or KPH substring (default KT); direction
from the first three characters unless a VRB substring is present; speed
from the three characters after position 3; gust from the three characters
after the first G, when G occurs. -/
def parse_wind (st : MetarState) (s : Tok) : MetarState :=
  let units := if (findSub ['M', 'P', 'S'] s).isSome then SpeedUnit.MPS
    else if (findSub ['K', 'P', 'H'] s).isSome then SpeedUnit.KPH
    else SpeedUnit.KT
  let st1 :=
    if (findSub ['V', 'R', 'B'] s).isNone then
      { st with windUnits := some units, windDir := some (atoi (s.take 3)) }
    else
      { st with windUnits := some units, vrb := true }
  let st2 := { st1 with windSpd := some (atoi ((s.drop 3).take 3)) }
  match findSub ['G'] s with
  | some g => { st2 with gust := some (atoi ((s.drop (g + 1)).take 3)) }
  | none => st2

/-- parse_wind_var: three digits of minimum, the remainder after the V of
maximum. -/
def parse_wind_var (st : MetarState) (s : Tok) : MetarState :=
  { st with
    minWindDir := some (atoi (s.take 3))
    maxWindDir := some (atoi (s.drop 4)) }

/-- The previous-token continuation of a fractional visibility: when the
previous element is a bare single digit its value is added. -/
def prevFrac (st : MetarState) : ℚ :=
  match st.prev with
  | some p => if matchChars ['#'] p then atof p else 0
  | none => 0

/-- parse_vis.  CAVOK sets the flag and returns.  Without an SM substring
the value is atof of the token, in meters.  With SM but no slash, atof of
the token in statute miles.  With a slash: the numerator is the characters
before the slash (a leading M is stripped and sets the less-than flag; the
copy in the source then takes one extra character, which atof ignores),
the denominator the characters from after the slash up to the unit marker
(again one extra character, ignored by atof), and a bare-single-digit
previous token is added on. -/
def parse_vis (st : MetarState) (s : Tok) : MetarState :=
  if s = "CAVOK".data then { st with cavok := true }
  else
    match findSub ['S', 'M'] s with
    | none => { st with vis := some (atof s), visUnits := some DistUnit.M }
    | some u =>
      match findSub ['/'] s with
      | none => { st with vis := some (atof s), visUnits := some DistUnit.SM }
      | some p =>
        let firstM := s.headD ' ' = 'M'
        let numSrc := if firstM then (s.drop 1).take p else s.take p
        let denSrc := (s.drop (p + 1)).take (u - p)
        let v := atof numSrc / atof denSrc + prevFrac st
        { st with
          vis := some v
          visUnits := some DistUnit.SM
          visLt := firstM || st.visLt }

/-- The layer one cloud token contributes under cover code c: exactly the
three cover letters gives no altitude; six characters give three digits of
hundreds of feet; anything longer also looks the suffix after position 6
up in the cloud-type table.  (For lengths four and five the source reads
past the token; they are folded into the long branch here, whose type
lookup finds nothing for them.) -/
def mkLayer (c : Cover) (s : Tok) : SkyCond :=
  if s.length = 3 then ⟨c, none, none⟩
  else if s.length = 6 then ⟨c, some (atoi (s.drop 3) * 100), none⟩
  else ⟨c, some (atoi (s.drop 3) * 100),
        cloudKindList.find? (fun k => cloudKindChars k = s.drop 6)⟩

/-- parse_cloud_layer: the source loops over all seven cover codes and
appends a layer for every prefix match (at most one can match, the codes
being distinct three-letter strings). -/
def parse_cloud_layer (st : MetarState) (s : Tok) : MetarState :=
  coverList.foldl
    (fun acc c =>
      if matchPre (coverChars c) s then
        { acc with layers := acc.layers ++ [mkLayer c s] }
      else acc)
    st

/-- parse_vert_vis: the digits after VV, times 100 feet. -/
def parse_vert_vis (st : MetarState) (s : Tok) : MetarState :=
  { st with vertVis := some (atoi (s.drop 2) * 100) }

/-- The static temp() helper: a leading M is rewritten to a minus sign
before atoi. -/
def tempVal (s : Tok) : Int :=
  atoi (if s.headD ' ' = 'M' then '-' :: s.drop 1 else s)

/-- parse_temp: split at the slash; the left side is the temperature, the
right side the dew point unless empty.  (Only called on tokens is_temp
accepted, which always contain a slash.) -/
def parse_temp (st : MetarState) (s : Tok) : MetarState :=
  match findSub ['/'] s with
  | none => st
  | some p =>
    let st1 := { st with temp := some (tempVal (s.take p)) }
    let rest := s.drop (p + 1)
    if rest.isEmpty then st1 else { st1 with dew := some (tempVal rest) }

/-- parse_alt: atoi of the digits after the lead character; a Q token
stores hectopascals directly, an A token hundredths of inches of
mercury. -/
def parse_alt (st : MetarState) (s : Tok) : MetarState :=
  let v := atoi (s.drop 1)
  if s.headD ' ' = 'Q' then { st with altimeterQ := some v }
  else { st with altimeterA := some ((v : ℚ) / 100) }

/-- parse_slp: the three digits after SLP, divided by ten, plus 1000. -/
def parse_slp (st : MetarState) (s : Tok) : MetarState :=
  { st with slp := some (atof (s.drop 3) / 10 + 1000) }

/-- The static tempNA() helper: a leading 1 is rewritten to a minus sign,
then atof over ten. -/
def tempNAVal (s : Tok) : ℚ :=
  atof (if s.headD ' ' = '1' then '-' :: s.drop 1 else s) / 10

/-- parse_tempNA: four digits after the T for the precise temperature,
the remainder after position 5 for the precise dew point. -/
def parse_tempNA (st : MetarState) (s : Tok) : MetarState :=
  { st with
    ftemp := some (tempNAVal ((s.drop 1).take 4))
    fdew := some (tempNAVal (s.drop 5)) }

/-- The ordered predicate chain of the parse() loop body: each entry
guarded by the absence of its field (the has* accessors of metar.h test
the constructor sentinels, i.e. presence), the cloud-layer entry guarded
by the three-layer cap. -/
def dispatch (st : MetarState) (el : Tok) : MetarState :=
  if st.metarType.isNone && is_metar el then parse_metar st el
    else if st.icao.isNone && is_icao el then parse_icao st el
    else if st.minute.isNone && is_ot el then parse_ot st el
    else if st.windSpd.isNone && is_wind el then parse_wind st el
    else if st.minWindDir.isNone && is_wind_var el then parse_wind_var st el
    else if st.vis.isNone && !st.cavok && is_vis el then parse_vis st el
    else if decide (st.layers.length < 3) && is_cloud_layer el then
      parse_cloud_layer st el
    else if st.vertVis.isNone && is_vert_vis el then parse_vert_vis st el
    else if st.temp.isNone && is_temp el then parse_temp st el
    else if st.altimeterA.isNone && is_altA el then parse_alt st el
    else if st.altimeterQ.isNone && is_altQ el then parse_alt st el
    else if st.slp.isNone && is_slp el then parse_slp st el
    else if st.ftemp.isNone && is_tempNA el then parse_tempNA st el
    else st

/-- One iteration of the parse() loop: dispatch on the predicate chain,
then the token becomes the previous element. -/
def step (st : MetarState) (el : Tok) : MetarState :=
  { dispatch st el with prev := some el }

/-- The parse() loop over a token list. -/
def runToks (st : MetarState) (toks : List Tok) : MetarState :=
  toks.foldl step st

/-- strtok(metar_str, " "): split on spaces, empty pieces skipped. -/
def splitSp : List Char → List Char → List Tok
  | [], acc => if acc.isEmpty then [] else [acc.reverse]
  | ' ' :: rest, acc =>
    if acc.isEmpty then splitSp rest []
    else acc.reverse :: splitSp rest []
  | c :: rest, acc => splitSp rest (c :: acc)

def tokenize (s : List Char) : List Tok := splitSp s []

/-- Decoding a whole report string: tokenize, then run the parse loop from
the freshly constructed state. -/
def parseMetar (s : String) : MetarState :=
  runToks initState (tokenize s.data)

/-- Phenomenon kinds: the two-letter vocabulary of Phenom.h, plus the
synthesized combination SLEET (rain plus snow) and the legacy
THUNDER_STORM code that the test suite references. -/
inductive PhenomKind
  | MIST | DUST_STORM | DUST | DRIZZLE | FUNNEL_CLOUD | FOG | SMOKE | HAIL
  | SMALL_HAIL | HAZE | ICE_CRYSTALS | ICE_PELLETS | DUST_SAND_WHORLS
  | SPRAY | RAIN | SAND | SNOW_GRAINS | SNOW | SQUALLS | SAND_STORM
  | UNKNOWN_PRECIP | VOLCANIC_ASH | SLEET | THUNDER_STORM
deriving DecidableEq

/-- Phenomenon intensity (Phenom.h). -/
inductive Intensity | LIGHT | NORMAL | HEAVY
deriving DecidableEq

/-- The qualifier flags of one phenomenon group. -/
structure Quals where
  blowing : Bool
  freezing : Bool
  drifting : Bool
  vicinity : Bool
  shower : Bool
  shallow : Bool
  partialQ : Bool
  patches : Bool
  thunderstorm : Bool
deriving DecidableEq

def noQuals : Quals := ⟨false, false, false, false, false, false, false, false, false⟩

/-- One decoded phenomenon occurrence: kind, intensity and qualifiers. -/
structure PhenomOcc where
  kind : PhenomKind
  inten : Intensity
  quals : Quals
deriving DecidableEq

/-- The two-letter phenomenon vocabulary (codes as commented in
Phenom.h). -/
def phenomVocab : List (List Char × PhenomKind) :=
  [("BR".data, .MIST), ("DS".data, .DUST_STORM), ("DU".data, .DUST),
   ("DZ".data, .DRIZZLE), ("FC".data, .FUNNEL_CLOUD), ("FG".data, .FOG),
   ("FU".data, .SMOKE), ("GR".data, .HAIL), ("GS".data, .SMALL_HAIL),
   ("HZ".data, .HAZE), ("IC".data, .ICE_CRYSTALS), ("PE".data, .ICE_PELLETS),
   ("PO".data, .DUST_SAND_WHORLS), ("PY".data, .SPRAY), ("RA".data, .RAIN),
   ("SA".data, .SAND), ("SG".data, .SNOW_GRAINS), ("SN".data, .SNOW),
   ("SQ".data, .SQUALLS), ("SS".data, .SAND_STORM),
   ("UP".data, .UNKNOWN_PRECIP), ("VA".data, .VOLCANIC_ASH)]

/-- Modelled from the spec: recognized qualifier prefixes are stripped in
a fixed priority, each setting its flag (the Phenom implementation file is
not under src, only the Phenom.h declarations and the test expectations
are). -/
def stripQuals : List Char → Quals → Quals × List Char
  | 'V' :: 'C' :: rest, q => stripQuals rest { q with vicinity := true }
  | 'B' :: 'L' :: rest, q => stripQuals rest { q with blowing := true }
  | 'F' :: 'Z' :: rest, q => stripQuals rest { q with freezing := true }
  | 'D' :: 'R' :: rest, q => stripQuals rest { q with drifting := true }
  | 'S' :: 'H' :: rest, q => stripQuals rest { q with shower := true }
  | 'M' :: 'I' :: rest, q => stripQuals rest { q with shallow := true }
  | 'P' :: 'R' :: rest, q => stripQuals rest { q with partialQ := true }
  | 'B' :: 'C' :: rest, q => stripQuals rest { q with patches := true }
  | 'T' :: 'S' :: rest, q => stripQuals rest { q with thunderstorm := true }
  | s, q => (q, s)

/-- The remaining core: successive two-letter codes looked up in the
vocabulary, unknown codes skipped. -/
def corePhenoms : List Char → List PhenomKind
  | a :: b :: rest =>
    match (phenomVocab.find? (fun pr => pr.1 = [a, b])).map (fun pr => pr.2) with
    | some k => k :: corePhenoms rest
    | none => corePhenoms rest
  | _ => []

/-- Modelled from the spec: the phenomena decoder for one token (the
Phenom::Create implementation is not under src).  A leading plus or minus
resolves the intensity, qualifier prefixes are stripped, and the core is
matched: the combination code RASN synthesizes exactly one SLEET
occurrence (rain plus snow), a bare thunderstorm qualifier yields the
legacy THUNDER_STORM occurrence, otherwise each known two-letter code
yields one occurrence. -/
def phenomDecode (s : Tok) : List PhenomOcc :=
  let ir := match s with
    | '+' :: r => (Intensity.HEAVY, r)
    | '-' :: r => (Intensity.LIGHT, r)
    | r => (Intensity.NORMAL, r)
  let qc := stripQuals ir.2 noQuals
  let kinds :=
    if qc.2 = "RASN".data then [PhenomKind.SLEET]
    else if qc.2.isEmpty && qc.1.thunderstorm then [PhenomKind.THUNDER_STORM]
    else corePhenoms qc.2
  kinds.map fun k => { kind := k, inten := ir.1, quals := qc.1 }

end MetarSpec

namespace MetarSpec

/-- C1: decoding the full report
"KSTL 231751Z 27009KT 10SM OVC015 09/06 A3029 RMK AO2 SLP260 T00940061
10100 20078 53002" yields icaoCode KSTL, day 23, hour 17, minute 51, wind
270 degrees at 9 knots, visibility 10 statute miles, exactly one cloud
layer OVC at 1500 feet, temperature 9, dew point 6, altimeter 30.29 inHg,
sea-level pressure 1026.0 hPa, precise temperature 9.4 and precise dew
point 6.1, every other field untouched by the remark tokens. -/
theorem c1_real_metar_decode :
    parseMetar "KSTL 231751Z 27009KT 10SM OVC015 09/06 A3029 RMK AO2 SLP260 T00940061 10100 20078 53002" =
    { metarType := none
      icao := some "KSTL".data
      day := some 23
      hour := some 17
      minute := some 51
      windDir := some 270
      windSpd := some 9
      gust := none
      windUnits := some SpeedUnit.KT
      minWindDir := none
      maxWindDir := none
      vrb := false
      vis := some 10
      visUnits := some DistUnit.SM
      visLt := false
      cavok := false
      layers := [⟨Cover.OVC, some 1500, none⟩]
      vertVis := none
      temp := some 9
      dew := some 6
      altimeterA := some (3029 / 100)
      altimeterQ := none
      slp := some 1026
      ftemp := some (94 / 10)
      fdew := some (61 / 10)
      prev := some "53002".data } := by
  decide

end MetarSpec

namespace MetarSpec

/-! Helper lemmas: which fields each sub-parser can touch, and basic facts
about the shape predicates. -/

theorem is_altA_head {s : Tok} (h : is_altA s = true) : s.headD ' ' = 'A' := by
  match s with
  | [] => simp [is_altA, matchChars] at h
  | c :: cs =>
    simp [is_altA, matchChars, matchChar] at h
    exact h.1.symm

theorem is_altQ_head {s : Tok} (h : is_altQ s = true) : s.headD ' ' = 'Q' := by
  match s with
  | [] => simp [is_altQ, matchChars] at h
  | c :: cs =>
    simp [is_altQ, matchChars, matchChar] at h
    exact h.1.symm

theorem parse_wind_shape (st : MetarState) (s : Tok) :
    ∃ a b c d e, parse_wind st s =
      { st with windDir := a, windSpd := b, gust := c, windUnits := d, vrb := e } := by
  simp only [parse_wind]
  repeat' split
  all_goals exact ⟨_, _, _, _, _, rfl⟩

theorem parse_vis_shape (st : MetarState) (s : Tok) :
    ∃ a b c d, parse_vis st s =
      { st with vis := a, visUnits := b, visLt := c, cavok := d } := by
  simp only [parse_vis]
  repeat' split
  all_goals exact ⟨_, _, _, _, rfl⟩

theorem parse_temp_shape (st : MetarState) (s : Tok) :
    ∃ a b, parse_temp st s = { st with temp := a, dew := b } := by
  simp only [parse_temp]
  repeat' split
  all_goals exact ⟨_, _, rfl⟩

theorem parse_alt_shape (st : MetarState) (s : Tok) :
    ∃ a b, parse_alt st s = { st with altimeterA := a, altimeterQ := b } := by
  simp only [parse_alt]
  repeat' split
  all_goals exact ⟨_, _, rfl⟩

theorem cloud_fold_shape (l : List Cover) (st : MetarState) (s : Tok) :
    ∃ L, l.foldl
        (fun acc c =>
          if matchPre (coverChars c) s then
            { acc with layers := acc.layers ++ [mkLayer c s] }
          else acc) st =
      { st with layers := st.layers ++ L } := by
  induction l generalizing st with
  | nil =>
    refine ⟨[], ?_⟩
    simp
  | cons c t ih =>
    simp only [List.foldl_cons]
    by_cases h : matchPre (coverChars c) s
    · obtain ⟨L, hL⟩ := ih { st with layers := st.layers ++ [mkLayer c s] }
      refine ⟨mkLayer c s :: L, ?_⟩
      rw [if_pos h, hL]
      simp [List.append_assoc]
    · obtain ⟨L, hL⟩ := ih st
      exact ⟨L, by rw [if_neg h]; exact hL⟩

theorem parse_cloud_layer_shape (st : MetarState) (s : Tok) :
    ∃ L, parse_cloud_layer st s = { st with layers := st.layers ++ L } :=
  cloud_fold_shape coverList st s

theorem matchPre_no_wildcard {p s : List Char} (h : matchPre p s = true)
    (hw : ∀ x ∈ p, ¬x = '#' ∧ ¬x = '$') : p = s.take p.length := by
  induction p generalizing s with
  | nil => simp
  | cons x xs ih =>
    cases s with
    | nil => simp [matchPre] at h
    | cons c cs =>
      simp only [matchPre, Bool.and_eq_true] at h
      have hx := hw x (List.mem_cons_self x xs)
      have hxc : x = c := by
        have := h.1
        rw [matchChar, if_neg hx.1, if_neg hx.2] at this
        exact of_decide_eq_true this
      have := ih h.2 (fun y hy => hw y (List.mem_cons_of_mem x hy))
      simp [List.take, hxc, ← this]

theorem cover_match_unique {c1 c2 : Cover} {s : Tok}
    (h1 : matchPre (coverChars c1) s = true)
    (h2 : matchPre (coverChars c2) s = true) : c1 = c2 := by
  have w1 : ∀ x ∈ coverChars c1, ¬x = '#' ∧ ¬x = '$' := by cases c1 <;> decide
  have w2 : ∀ x ∈ coverChars c2, ¬x = '#' ∧ ¬x = '$' := by cases c2 <;> decide
  have l1 : (coverChars c1).length = 3 := by cases c1 <;> rfl
  have l2 : (coverChars c2).length = 3 := by cases c2 <;> rfl
  have e1 := matchPre_no_wildcard h1 w1
  have e2 := matchPre_no_wildcard h2 w2
  rw [l1] at e1
  rw [l2] at e2
  have heq : coverChars c1 = coverChars c2 := e1.trans e2.symm
  revert heq
  cases c1 <;> cases c2 <;> decide

theorem cloud_fold_spec (l : List Cover) (st : MetarState) (s : Tok)
    (hnd : l.Nodup) :
    ((∀ c ∈ l, matchPre (coverChars c) s = false) ∧
      (l.foldl
        (fun acc c =>
          if matchPre (coverChars c) s then
            { acc with layers := acc.layers ++ [mkLayer c s] }
          else acc) st).layers = st.layers) ∨
    (∃ c ∈ l, matchPre (coverChars c) s = true ∧
      (l.foldl
        (fun acc c =>
          if matchPre (coverChars c) s then
            { acc with layers := acc.layers ++ [mkLayer c s] }
          else acc) st).layers = st.layers ++ [mkLayer c s]) := by
  induction l generalizing st with
  | nil => exact Or.inl ⟨by simp, rfl⟩
  | cons c t ih =>
    rw [List.nodup_cons] at hnd
    simp only [List.foldl_cons]
    by_cases hc : matchPre (coverChars c) s = true
    · rw [if_pos hc]
      rcases ih { st with layers := st.layers ++ [mkLayer c s] } hnd.2 with
        ⟨_, hp⟩ | ⟨c2, hmem, hmatch, _⟩
      · exact Or.inr ⟨c, List.mem_cons_self c t, hc, by rw [hp]⟩
      · exact absurd ((cover_match_unique hmatch hc) ▸ hmem) hnd.1
    · rw [if_neg hc]
      rcases ih st hnd.2 with ⟨hall, hp⟩ | ⟨c2, hmem, hmatch, hp⟩
      · refine Or.inl ⟨?_, hp⟩
        intro c3 hc3
        rcases List.mem_cons.mp hc3 with rfl | hc3t
        · exact Bool.eq_false_iff.mpr hc
        · exact hall c3 hc3t
      · exact Or.inr ⟨c2, List.mem_cons_of_mem c hmem, hmatch, hp⟩

theorem parse_cloud_layer_spec (st : MetarState) (s : Tok) :
    ((is_cloud_layer s = false) ∧ (parse_cloud_layer st s).layers = st.layers) ∨
    (∃ c, matchPre (coverChars c) s = true ∧
      (parse_cloud_layer st s).layers = st.layers ++ [mkLayer c s]) := by
  rcases cloud_fold_spec coverList st s (by decide) with ⟨hall, hp⟩ | ⟨c, _, hm, hp⟩
  · refine Or.inl ⟨?_, hp⟩
    rw [is_cloud_layer, List.any_eq_false]
    intro c hc
    simp [hall c hc]
  · exact Or.inr ⟨c, hm, hp⟩

end MetarSpec

namespace MetarSpec

/-! The case analysis of one loop iteration: either no branch fires, or
exactly one sub-parser runs, its guard and shape predicate both holding. -/

theorem dispatch_cases (st : MetarState) (el : Tok) :
    dispatch st el = st ∨
    (st.metarType = none ∧ is_metar el = true ∧ dispatch st el = parse_metar st el) ∨
    (st.icao = none ∧ is_icao el = true ∧ dispatch st el = parse_icao st el) ∨
    (st.minute = none ∧ is_ot el = true ∧ dispatch st el = parse_ot st el) ∨
    (st.windSpd = none ∧ is_wind el = true ∧ dispatch st el = parse_wind st el) ∨
    (st.minWindDir = none ∧ is_wind_var el = true ∧ dispatch st el = parse_wind_var st el) ∨
    (st.vis = none ∧ st.cavok = false ∧ is_vis el = true ∧ dispatch st el = parse_vis st el) ∨
    (st.layers.length < 3 ∧ is_cloud_layer el = true ∧ dispatch st el = parse_cloud_layer st el) ∨
    (st.vertVis = none ∧ is_vert_vis el = true ∧ dispatch st el = parse_vert_vis st el) ∨
    (st.temp = none ∧ is_temp el = true ∧ dispatch st el = parse_temp st el) ∨
    (st.altimeterA = none ∧ is_altA el = true ∧ dispatch st el = parse_alt st el) ∨
    (st.altimeterQ = none ∧ is_altQ el = true ∧ dispatch st el = parse_alt st el) ∨
    (st.slp = none ∧ is_slp el = true ∧ dispatch st el = parse_slp st el) ∨
    (st.ftemp = none ∧ is_tempNA el = true ∧ dispatch st el = parse_tempNA st el) := by
  unfold dispatch
  by_cases h1 : (st.metarType.isNone && is_metar el) = true
  · rw [if_pos h1]
    simp only [Bool.and_eq_true, Option.isNone_iff_eq_none, Bool.not_eq_true,
      decide_eq_true_eq] at h1
    exact Or.inr (Or.inl ⟨h1.1, h1.2, rfl⟩)
  · rw [if_neg h1]
    by_cases h2 : (st.icao.isNone && is_icao el) = true
    · rw [if_pos h2]
      simp only [Bool.and_eq_true, Option.isNone_iff_eq_none, Bool.not_eq_true,
        decide_eq_true_eq] at h2
      exact Or.inr (Or.inr (Or.inl ⟨h2.1, h2.2, rfl⟩))
    · rw [if_neg h2]
      by_cases h3 : (st.minute.isNone && is_ot el) = true
      · rw [if_pos h3]
        simp only [Bool.and_eq_true, Option.isNone_iff_eq_none, Bool.not_eq_true,
          decide_eq_true_eq] at h3
        exact Or.inr (Or.inr (Or.inr (Or.inl ⟨h3.1, h3.2, rfl⟩)))
      · rw [if_neg h3]
        by_cases h4 : (st.windSpd.isNone && is_wind el) = true
        · rw [if_pos h4]
          simp only [Bool.and_eq_true, Option.isNone_iff_eq_none, Bool.not_eq_true,
            decide_eq_true_eq] at h4
          exact Or.inr (Or.inr (Or.inr (Or.inr (Or.inl ⟨h4.1, h4.2, rfl⟩))))
        · rw [if_neg h4]
          by_cases h5 : (st.minWindDir.isNone && is_wind_var el) = true
          · rw [if_pos h5]
            simp only [Bool.and_eq_true, Option.isNone_iff_eq_none, Bool.not_eq_true,
              decide_eq_true_eq] at h5
            exact Or.inr (Or.inr (Or.inr (Or.inr (Or.inr (Or.inl ⟨h5.1, h5.2, rfl⟩)))))
          · rw [if_neg h5]
            by_cases h6 : (st.vis.isNone && !st.cavok && is_vis el) = true
            · rw [if_pos h6]
              simp only [Bool.and_eq_true, Option.isNone_iff_eq_none, Bool.not_eq_true,
                decide_eq_true_eq] at h6
              exact Or.inr (Or.inr (Or.inr (Or.inr (Or.inr (Or.inr (Or.inl ⟨h6.1.1, by simpa using h6.1.2, h6.2, rfl⟩))))))
            · rw [if_neg h6]
              by_cases h7 : (decide (st.layers.length < 3) && is_cloud_layer el) = true
              · rw [if_pos h7]
                simp only [Bool.and_eq_true, Option.isNone_iff_eq_none, Bool.not_eq_true,
                  decide_eq_true_eq] at h7
                exact Or.inr (Or.inr (Or.inr (Or.inr (Or.inr (Or.inr (Or.inr (Or.inl ⟨h7.1, h7.2, rfl⟩)))))))
              · rw [if_neg h7]
                by_cases h8 : (st.vertVis.isNone && is_vert_vis el) = true
                · rw [if_pos h8]
                  simp only [Bool.and_eq_true, Option.isNone_iff_eq_none, Bool.not_eq_true,
                    decide_eq_true_eq] at h8
                  exact Or.inr (Or.inr (Or.inr (Or.inr (Or.inr (Or.inr (Or.inr (Or.inr (Or.inl ⟨h8.1, h8.2, rfl⟩))))))))
                · rw [if_neg h8]
                  by_cases h9 : (st.temp.isNone && is_temp el) = true
                  · rw [if_pos h9]
                    simp only [Bool.and_eq_true, Option.isNone_iff_eq_none, Bool.not_eq_true,
                      decide_eq_true_eq] at h9
                    exact Or.inr (Or.inr (Or.inr (Or.inr (Or.inr (Or.inr (Or.inr (Or.inr (Or.inr (Or.inl ⟨h9.1, h9.2, rfl⟩)))))))))
                  · rw [if_neg h9]
                    by_cases h10 : (st.altimeterA.isNone && is_altA el) = true
                    · rw [if_pos h10]
                      simp only [Bool.and_eq_true, Option.isNone_iff_eq_none, Bool.not_eq_true,
                        decide_eq_true_eq] at h10
                      exact Or.inr (Or.inr (Or.inr (Or.inr (Or.inr (Or.inr (Or.inr (Or.inr (Or.inr (Or.inr (Or.inl ⟨h10.1, h10.2, rfl⟩))))))))))
                    · rw [if_neg h10]
                      by_cases h11 : (st.altimeterQ.isNone && is_altQ el) = true
                      · rw [if_pos h11]
                        simp only [Bool.and_eq_true, Option.isNone_iff_eq_none, Bool.not_eq_true,
                          decide_eq_true_eq] at h11
                        exact Or.inr (Or.inr (Or.inr (Or.inr (Or.inr (Or.inr (Or.inr (Or.inr (Or.inr (Or.inr (Or.inr (Or.inl ⟨h11.1, h11.2, rfl⟩)))))))))))
                      · rw [if_neg h11]
                        by_cases h12 : (st.slp.isNone && is_slp el) = true
                        · rw [if_pos h12]
                          simp only [Bool.and_eq_true, Option.isNone_iff_eq_none, Bool.not_eq_true,
                            decide_eq_true_eq] at h12
                          exact Or.inr (Or.inr (Or.inr (Or.inr (Or.inr (Or.inr (Or.inr (Or.inr (Or.inr (Or.inr (Or.inr (Or.inr (Or.inl ⟨h12.1, h12.2, rfl⟩))))))))))))
                        · rw [if_neg h12]
                          by_cases h13 : (st.ftemp.isNone && is_tempNA el) = true
                          · rw [if_pos h13]
                            simp only [Bool.and_eq_true, Option.isNone_iff_eq_none, Bool.not_eq_true,
                              decide_eq_true_eq] at h13
                            exact Or.inr (Or.inr (Or.inr (Or.inr (Or.inr (Or.inr (Or.inr (Or.inr (Or.inr (Or.inr (Or.inr (Or.inr (Or.inr ⟨h13.1, h13.2, rfl⟩))))))))))))
                          · rw [if_neg h13]
                            exact Or.inl rfl
theorem step_frame (st : MetarState) (el : Tok) :
    (step st el).prev = some el ∧
    ((step st el).metarType = st.metarType ∨ st.metarType = none) ∧
    ((step st el).icao = st.icao ∨
      (st.icao = none ∧ is_icao el = true ∧ (step st el).icao = some el)) ∧
    (((step st el).day = st.day ∧ (step st el).hour = st.hour ∧
      (step st el).minute = st.minute) ∨ st.minute = none) ∧
    (((step st el).windDir = st.windDir ∧ (step st el).windSpd = st.windSpd ∧
      (step st el).gust = st.gust ∧ (step st el).windUnits = st.windUnits ∧
      (step st el).vrb = st.vrb) ∨ st.windSpd = none) ∧
    (((step st el).minWindDir = st.minWindDir ∧
      (step st el).maxWindDir = st.maxWindDir) ∨ st.minWindDir = none) ∧
    (((step st el).vis = st.vis ∧ (step st el).visUnits = st.visUnits ∧
      (step st el).visLt = st.visLt ∧ (step st el).cavok = st.cavok) ∨
      (st.vis = none ∧ st.cavok = false ∧ is_vis el = true ∧
       (step st el).vis = (parse_vis st el).vis ∧
       (step st el).cavok = (parse_vis st el).cavok)) ∧
    (∃ L, (step st el).layers = st.layers ++ L ∧ L.length ≤ 1 ∧
      (L = [] ∨ st.layers.length < 3)) ∧
    ((step st el).vertVis = st.vertVis ∨ st.vertVis = none) ∧
    (((step st el).temp = st.temp ∧ (step st el).dew = st.dew) ∨ st.temp = none) ∧
    ((step st el).altimeterA = st.altimeterA ∨
      (st.altimeterA = none ∧ is_altA el = true ∧
       (step st el).altimeterA = some ((atoi (el.drop 1) : ℚ) / 100))) ∧
    ((step st el).altimeterQ = st.altimeterQ ∨
      (st.altimeterQ = none ∧ is_altQ el = true ∧
       (step st el).altimeterQ = some (atoi (el.drop 1)))) ∧
    ((step st el).slp = st.slp ∨ st.slp = none) ∧
    (((step st el).ftemp = st.ftemp ∧ (step st el).fdew = st.fdew) ∨
      st.ftemp = none) := by
  rcases dispatch_cases st el with h | ⟨hn, hs, h⟩ | ⟨hn, hs, h⟩ | ⟨hn, hs, h⟩ |
    ⟨hn, hs, h⟩ | ⟨hn, hs, h⟩ | ⟨hn, hc, hs, h⟩ | ⟨hn, hs, h⟩ | ⟨hn, hs, h⟩ |
    ⟨hn, hs, h⟩ | ⟨hn, hs, h⟩ | ⟨hn, hs, h⟩ | ⟨hn, hs, h⟩ | ⟨hn, hs, h⟩
  · simp [step, h]
  · simp [step, h, parse_metar, hn]
  · simp [step, h, parse_icao, hn, hs]
  · simp [step, h, parse_ot, hn]
  · obtain ⟨a, b, c, d, e, hw⟩ := parse_wind_shape st el
    simp [step, h, hw, hn]
  · simp [step, h, parse_wind_var, hn]
  · obtain ⟨a, b, c, d, hv⟩ := parse_vis_shape st el
    simp [step, h, hv, hn, hc, hs]
  · obtain ⟨L0, hsh⟩ := parse_cloud_layer_shape st el
    have hlay := parse_cloud_layer_spec st el
    rw [hsh] at hlay
    simp only [MetarState.mk.injEq] at hlay
    rcases hlay with ⟨-, hL⟩ | ⟨c, -, hL⟩ <;>
      simp only [List.append_right_eq_self, List.append_cancel_left_eq] at hL <;>
      subst hL <;> simp [step, h, hsh, hn]
  · simp [step, h, parse_vert_vis, hn]
  · obtain ⟨a, b, ht⟩ := parse_temp_shape st el
    simp [step, h, ht, hn]
  · have hA : (el.head?).getD ' ' = 'A' := by simpa using is_altA_head hs
    simp [step, h, parse_alt, hA, hn, hs]
  · have hQ : (el.head?).getD ' ' = 'Q' := by simpa using is_altQ_head hs
    simp [step, h, parse_alt, hQ, hn, hs]
  · simp [step, h, parse_slp, hn]
  · simp [step, h, parse_tempNA, hn]

end MetarSpec

namespace MetarSpec

/-- Run-level frame: over any token list, every field is either untouched
or was absent to begin with, and layers only grow at the tail. -/
theorem runToks_frame (toks : List Tok) : ∀ st : MetarState,
    ((runToks st toks).metarType = st.metarType ∨ st.metarType = none) ∧
    ((runToks st toks).icao = st.icao ∨ st.icao = none) ∧
    (((runToks st toks).day = st.day ∧ (runToks st toks).hour = st.hour ∧
      (runToks st toks).minute = st.minute) ∨ st.minute = none) ∧
    (((runToks st toks).windDir = st.windDir ∧ (runToks st toks).windSpd = st.windSpd ∧
      (runToks st toks).gust = st.gust ∧ (runToks st toks).windUnits = st.windUnits ∧
      (runToks st toks).vrb = st.vrb) ∨ st.windSpd = none) ∧
    (((runToks st toks).minWindDir = st.minWindDir ∧
      (runToks st toks).maxWindDir = st.maxWindDir) ∨ st.minWindDir = none) ∧
    (((runToks st toks).vis = st.vis ∧ (runToks st toks).visUnits = st.visUnits ∧
      (runToks st toks).visLt = st.visLt ∧ (runToks st toks).cavok = st.cavok) ∨
      (st.vis = none ∧ st.cavok = false)) ∧
    (∃ L, (runToks st toks).layers = st.layers ++ L) ∧
    ((runToks st toks).vertVis = st.vertVis ∨ st.vertVis = none) ∧
    (((runToks st toks).temp = st.temp ∧ (runToks st toks).dew = st.dew) ∨ st.temp = none) ∧
    ((runToks st toks).altimeterA = st.altimeterA ∨ st.altimeterA = none) ∧
    ((runToks st toks).altimeterQ = st.altimeterQ ∨ st.altimeterQ = none) ∧
    ((runToks st toks).slp = st.slp ∨ st.slp = none) ∧
    (((runToks st toks).ftemp = st.ftemp ∧ (runToks st toks).fdew = st.fdew) ∨
      st.ftemp = none) := by
  induction toks with
  | nil => intro st; simp [runToks]
  | cons el rest ih =>
    intro st
    have hrun : runToks st (el :: rest) = runToks (step st el) rest := rfl
    obtain ⟨hp, f1, f2, f3, f4, f5, f6, ⟨L1, f7, -, -⟩, f8, f9, f10, f11, f12,
      f13⟩ := step_frame st el
    obtain ⟨g1, g2, g3, g4, g5, g6, ⟨L2, g7⟩, g8, g9, g10, g11, g12, g13⟩ :=
      ih (step st el)
    rw [hrun]
    refine ⟨?_, ?_, ?_, ?_, ?_, ?_, ⟨L1 ++ L2, ?_⟩, ?_, ?_, ?_, ?_, ?_, ?_⟩
    · rcases f1 with he | hn
      · rcases g1 with ge | gn
        · exact Or.inl (ge.trans he)
        · exact Or.inr (he ▸ gn)
      · exact Or.inr hn
    · rcases f2 with he | hn
      · rcases g2 with ge | gn
        · exact Or.inl (ge.trans he)
        · exact Or.inr (he ▸ gn)
      · exact Or.inr hn.1
    · rcases f3 with ⟨ha, hb, hc⟩ | hn
      · rcases g3 with ⟨ga, gb, gc⟩ | gn
        · exact Or.inl ⟨ga.trans ha, gb.trans hb, gc.trans hc⟩
        · exact Or.inr (hc ▸ gn)
      · exact Or.inr hn
    · rcases f4 with ⟨ha, hb, hc, hd, he⟩ | hn
      · rcases g4 with ⟨ga, gb, gc, gd, ge⟩ | gn
        · exact Or.inl ⟨ga.trans ha, gb.trans hb, gc.trans hc, gd.trans hd, ge.trans he⟩
        · exact Or.inr (hb ▸ gn)
      · exact Or.inr hn
    · rcases f5 with ⟨ha, hb⟩ | hn
      · rcases g5 with ⟨ga, gb⟩ | gn
        · exact Or.inl ⟨ga.trans ha, gb.trans hb⟩
        · exact Or.inr (ha ▸ gn)
      · exact Or.inr hn
    · rcases f6 with ⟨ha, hb, hc, hd⟩ | hn
      · rcases g6 with ⟨ga, gb, gc, gd⟩ | gn
        · exact Or.inl ⟨ga.trans ha, gb.trans hb, gc.trans hc, gd.trans hd⟩
        · exact Or.inr ⟨ha ▸ gn.1, hd ▸ gn.2⟩
      · exact Or.inr ⟨hn.1, hn.2.1⟩
    · rw [g7, f7, List.append_assoc]
    · rcases f8 with he | hn
      · rcases g8 with ge | gn
        · exact Or.inl (ge.trans he)
        · exact Or.inr (he ▸ gn)
      · exact Or.inr hn
    · rcases f9 with ⟨ha, hb⟩ | hn
      · rcases g9 with ⟨ga, gb⟩ | gn
        · exact Or.inl ⟨ga.trans ha, gb.trans hb⟩
        · exact Or.inr (ha ▸ gn)
      · exact Or.inr hn
    · rcases f10 with he | hn
      · rcases g10 with ge | gn
        · exact Or.inl (ge.trans he)
        · exact Or.inr (he ▸ gn)
      · exact Or.inr hn.1
    · rcases f11 with he | hn
      · rcases g11 with ge | gn
        · exact Or.inl (ge.trans he)
        · exact Or.inr (he ▸ gn)
      · exact Or.inr hn.1
    · rcases f12 with he | hn
      · rcases g12 with ge | gn
        · exact Or.inl (ge.trans he)
        · exact Or.inr (he ▸ gn)
      · exact Or.inr hn
    · rcases f13 with ⟨ha, hb⟩ | hn
      · rcases g13 with ⟨ga, gb⟩ | gn
        · exact Or.inl ⟨ga.trans ha, gb.trans hb⟩
        · exact Or.inr (ha ▸ gn)
      · exact Or.inr hn

end MetarSpec

namespace MetarSpec

theorem matchChars_length {p s : List Char} (h : matchChars p s = true) :
    p.length = s.length := by
  induction p generalizing s with
  | nil => cases s with
    | nil => rfl
    | cons c cs => simp [matchChars] at h
  | cons x xs ih =>
    cases s with
    | nil => simp [matchChars] at h
    | cons c cs =>
      simp only [matchChars, Bool.and_eq_true] at h
      simp [ih h.2]

theorem is_icao_not_metar {el : Tok} (h : is_icao el = true) :
    is_metar el = false := by
  have hl := matchChars_length h
  simp only [is_metar, Bool.or_eq_false_iff]
  constructor <;> (simp only [decide_eq_false_iff_not]; rintro rfl; simp at hl)

theorem dispatch_icao_fires (st : MetarState) (el : Tok) (hn : st.icao = none)
    (hs : is_icao el = true) : dispatch st el = parse_icao st el := by
  have hm := is_icao_not_metar hs
  unfold dispatch
  rw [if_neg (by simp [hm]), if_pos (by simp [hn, hs])]

theorem step_icao (st : MetarState) (el : Tok) :
    (step st el).icao =
      if st.icao = none ∧ is_icao el = true then some el else st.icao := by
  by_cases hn : st.icao = none
  · by_cases hs : is_icao el = true
    · rw [if_pos ⟨hn, hs⟩]
      simp [step, dispatch_icao_fires st el hn hs, parse_icao]
    · rw [if_neg (by simp [hs])]
      rcases (step_frame st el).2.2.1 with he | ⟨_, hs2, _⟩
      · exact he
      · exact absurd hs2 hs
  · rw [if_neg (by simp [hn])]
    rcases (step_frame st el).2.2.1 with he | ⟨hn2, _, _⟩
    · exact he
    · exact absurd hn2 hn

theorem runToks_icao (toks : List Tok) : ∀ st : MetarState,
    (runToks st toks).icao = st.icao.or (toks.find? (fun el => is_icao el)) := by
  induction toks with
  | nil => intro st; cases h : st.icao <;> simp [runToks, h]
  | cons el rest ih =>
    intro st
    have hrun : runToks st (el :: rest) = runToks (step st el) rest := rfl
    rw [hrun, ih (step st el), step_icao]
    by_cases hn : st.icao = none
    · by_cases hs : is_icao el = true
      · rw [if_pos ⟨hn, hs⟩]
        simp [hn, List.find?, hs]
      · rw [if_neg (by simp [hs])]
        simp [hn, List.find?, hs]
    · rw [if_neg (by simp [hn])]
      cases h : st.icao with
      | none => exact absurd h hn
      | some x => simp [h]

/-- C10: icaoCode is present exactly when some token consists of four
alphabetic characters, and then equals the first such token, since the
ICAO predicate checks only the four-letter shape (so a four-letter
weather code such as RASN before any station token becomes the
icaoCode). -/
theorem c10_icao_is_first_four_letter_token :
    (∀ toks : List Tok,
      (runToks initState toks).icao = toks.find? (fun el => is_icao el)) ∧
    (∀ s : String,
      (parseMetar s).icao = (tokenize s.data).find? (fun el => is_icao el)) ∧
    (∀ el : Tok, is_icao el = true ↔
      (el.length = 4 ∧ el.all Char.isAlpha = true)) := by
  refine ⟨fun toks => ?_, fun s => ?_, fun el => ?_⟩
  · rw [runToks_icao]
    simp [initState]
  · rw [parseMetar, runToks_icao]
    simp [initState]
  · rcases el with _ | ⟨a, _ | ⟨b, _ | ⟨c, _ | ⟨d, _ | ⟨e, r⟩⟩⟩⟩⟩ <;>
      simp [is_icao, matchChars, matchChar, and_assoc]

/-- Witness for C10: the four-letter weather code RASN, arriving before
the station token, is taken as the icaoCode. -/
theorem c10_witness :
    (parseMetar "RASN KSTL").icao = some "RASN".data := by
  have h := c10_icao_is_first_four_letter_token.2.1 "RASN KSTL"
  rw [h]
  decide

end MetarSpec

namespace MetarSpec

theorem matchChars_nil_left (r : List Char) : matchChars [] r = r.isEmpty := by
  cases r <;> rfl

theorem digit_ne {x c : Char} (hx : x.isDigit = false) (hc : c.isDigit = true) :
    ¬(x = c) := by
  rintro rfl
  rw [hc] at hx
  cases hx

theorem digit_beq {x c : Char} (hx : x.isDigit = false) (hc : c.isDigit = true) :
    (x == c) = false := by
  rw [beq_eq_false_iff_ne]
  exact digit_ne hx hc

theorem is_altA_shape {el : Tok} (h : is_altA el = true) :
    ∃ a b c d, el = ['A', a, b, c, d] ∧ a.isDigit = true ∧ b.isDigit = true ∧
      c.isDigit = true ∧ d.isDigit = true := by
  rcases el with _ | ⟨x, _ | ⟨a, _ | ⟨b, _ | ⟨c, _ | ⟨d, r⟩⟩⟩⟩⟩ <;>
    simp [is_altA, matchChars, matchChar, matchChars_nil_left] at h
  exact ⟨a, b, c, d, by simp [h.1.symm, h.2.2.2.2.2], h.2.1, h.2.2.1, h.2.2.2.1,
    h.2.2.2.2.1⟩

theorem is_altQ_shape {el : Tok} (h : is_altQ el = true) :
    ∃ a b c d, el = ['Q', a, b, c, d] ∧ a.isDigit = true ∧ b.isDigit = true ∧
      c.isDigit = true ∧ d.isDigit = true := by
  rcases el with _ | ⟨x, _ | ⟨a, _ | ⟨b, _ | ⟨c, _ | ⟨d, r⟩⟩⟩⟩⟩ <;>
    simp [is_altQ, matchChars, matchChar, matchChars_nil_left] at h
  exact ⟨a, b, c, d, by simp [h.1.symm, h.2.2.2.2.2], h.2.1, h.2.2.1, h.2.2.2.1,
    h.2.2.2.2.1⟩

theorem alt_not_earlier {x a b c d : Char} (hx : x = 'A' ∨ x = 'Q')
    (ha : a.isDigit = true) (hb : b.isDigit = true) (hc : c.isDigit = true)
    (hd : d.isDigit = true) :
    is_metar [x, a, b, c, d] = false ∧ is_icao [x, a, b, c, d] = false ∧
    is_ot [x, a, b, c, d] = false ∧ is_wind [x, a, b, c, d] = false ∧
    is_wind_var [x, a, b, c, d] = false ∧ is_vis [x, a, b, c, d] = false ∧
    is_cloud_layer [x, a, b, c, d] = false ∧ is_vert_vis [x, a, b, c, d] = false ∧
    is_temp [x, a, b, c, d] = false := by
  have s1 := digit_beq (by decide : ('S' : Char).isDigit = false) ha
  have s2 := digit_beq (by decide : ('S' : Char).isDigit = false) hb
  have s3 := digit_beq (by decide : ('S' : Char).isDigit = false) hc
  have s4 := digit_beq (by decide : ('S' : Char).isDigit = false) hd
  rcases hx with rfl | rfl <;>
    simp [is_metar, is_icao, is_ot, is_wind, is_wind_var, is_vis, is_cloud_layer,
      is_vert_vis, is_temp, matchChars, matchChar, matchPre, findSub,
      List.isPrefixOf, coverList, coverChars, matchChars_nil_left,
      s1, s2, s3, s4, ha, hb, hc, hd]

theorem dispatch_altA_fires (st : MetarState) (el : Tok)
    (hn : st.altimeterA = none) (hs : is_altA el = true) :
    dispatch st el = parse_alt st el := by
  obtain ⟨a, b, c, d, rfl, ha, hb, hc, hd⟩ := is_altA_shape hs
  obtain ⟨e1, e2, e3, e4, e5, e6, e7, e8, e9⟩ :=
    alt_not_earlier (Or.inl rfl) ha hb hc hd
  unfold dispatch
  rw [if_neg (by simp [e1]), if_neg (by simp [e2]), if_neg (by simp [e3]),
    if_neg (by simp [e4]), if_neg (by simp [e5]), if_neg (by simp [e6]),
    if_neg (by simp [e7]), if_neg (by simp [e8]), if_neg (by simp [e9]),
    if_pos (by simp [hn, hs])]

theorem dispatch_altQ_fires (st : MetarState) (el : Tok)
    (hn : st.altimeterQ = none) (hs : is_altQ el = true) :
    dispatch st el = parse_alt st el := by
  obtain ⟨a, b, c, d, rfl, ha, hb, hc, hd⟩ := is_altQ_shape hs
  obtain ⟨e1, e2, e3, e4, e5, e6, e7, e8, e9⟩ :=
    alt_not_earlier (Or.inr rfl) ha hb hc hd
  have eA : is_altA ['Q', a, b, c, d] = false := by
    simp [is_altA, matchChars, matchChar]
  unfold dispatch
  rw [if_neg (by simp [e1]), if_neg (by simp [e2]), if_neg (by simp [e3]),
    if_neg (by simp [e4]), if_neg (by simp [e5]), if_neg (by simp [e6]),
    if_neg (by simp [e7]), if_neg (by simp [e8]), if_neg (by simp [e9]),
    if_neg (by simp [eA]), if_pos (by simp [hn, hs])]

theorem step_altA_isSome (st : MetarState) (el : Tok) :
    (step st el).altimeterA.isSome = (st.altimeterA.isSome || is_altA el) := by
  by_cases hs : is_altA el = true
  · by_cases hn : st.altimeterA = none
    · have hd := dispatch_altA_fires st el hn hs
      have hA : (el.head?).getD ' ' = 'A' := by simpa using is_altA_head hs
      simp [step, hd, parse_alt, hA, hs]
    · rcases (step_frame st el).2.2.2.2.2.2.2.2.2.2.1 with he | ⟨hn2, _, _⟩
      · rw [he]
        cases h : st.altimeterA with
        | none => exact absurd h hn
        | some x => simp [h, hs]
      · exact absurd hn2 hn
  · rcases (step_frame st el).2.2.2.2.2.2.2.2.2.2.1 with he | ⟨_, hs2, _⟩
    · simp [he, Bool.eq_false_iff.mpr hs]
    · exact absurd hs2 hs

theorem step_altQ_isSome (st : MetarState) (el : Tok) :
    (step st el).altimeterQ.isSome = (st.altimeterQ.isSome || is_altQ el) := by
  by_cases hs : is_altQ el = true
  · by_cases hn : st.altimeterQ = none
    · have hd := dispatch_altQ_fires st el hn hs
      have hQ : (el.head?).getD ' ' = 'Q' := by simpa using is_altQ_head hs
      simp [step, hd, parse_alt, hQ, hs]
    · rcases (step_frame st el).2.2.2.2.2.2.2.2.2.2.2.1 with he | ⟨hn2, _, _⟩
      · rw [he]
        cases h : st.altimeterQ with
        | none => exact absurd h hn
        | some x => simp [h, hs]
      · exact absurd hn2 hn
  · rcases (step_frame st el).2.2.2.2.2.2.2.2.2.2.2.1 with he | ⟨_, hs2, _⟩
    · simp [he, Bool.eq_false_iff.mpr hs]
    · exact absurd hs2 hs

theorem runToks_alt_isSome (toks : List Tok) : ∀ st : MetarState,
    (runToks st toks).altimeterA.isSome =
      (st.altimeterA.isSome || toks.any (fun el => is_altA el)) ∧
    (runToks st toks).altimeterQ.isSome =
      (st.altimeterQ.isSome || toks.any (fun el => is_altQ el)) := by
  induction toks with
  | nil => intro st; simp [runToks]
  | cons el rest ih =>
    intro st
    have hrun : runToks st (el :: rest) = runToks (step st el) rest := rfl
    obtain ⟨ihA, ihQ⟩ := ih (step st el)
    rw [hrun]
    constructor
    · rw [ihA, step_altA_isSome]
      simp [Bool.or_assoc]
    · rw [ihQ, step_altQ_isSome]
      simp [Bool.or_assoc]

/-- C5 (amended): after decoding, the altimeter-in-inches field is present
exactly when some token matches the A#### shape, and the hectopascal field
exactly when some token matches the Q#### shape; hence both are present
precisely when the input contains both shapes.  The guards only prevent a
second token of the same kind, so mutual exclusion holds only for inputs
carrying at most one of the two shapes. -/
theorem c5_alt_presence_iff : ∀ toks : List Tok,
    ((runToks initState toks).altimeterA.isSome = true ↔
      ∃ el ∈ toks, is_altA el = true) ∧
    ((runToks initState toks).altimeterQ.isSome = true ↔
      ∃ el ∈ toks, is_altQ el = true) ∧
    (((runToks initState toks).altimeterA.isSome = true ∧
      (runToks initState toks).altimeterQ.isSome = true) ↔
      ((∃ el ∈ toks, is_altA el = true) ∧ ∃ el ∈ toks, is_altQ el = true)) := by
  intro toks
  obtain ⟨hA, hQ⟩ := runToks_alt_isSome toks initState
  refine ⟨?_, ?_, ?_⟩
  · rw [hA]; simp [initState, List.any_eq_true]
  · rw [hQ]; simp [initState, List.any_eq_true]
  · rw [hA, hQ]; simp [initState, List.any_eq_true]

/-- Counterexample to C5 as stated: an input containing both an A####
token and a Q#### token ends with both altimeter fields present. -/
theorem c5_counterexample :
    (parseMetar "A3029 Q1020").altimeterA = some (3029 / 100) ∧
    (parseMetar "A3029 Q1020").altimeterQ = some 1020 := by decide

/-- Witness for C5 (amended) at a concrete input with one A#### token. -/
theorem c5_witness :
    (runToks initState ["A3029".data]).altimeterA.isSome = true :=
  (c5_alt_presence_iff ["A3029".data]).1.mpr ⟨"A3029".data, by decide, by decide⟩

end MetarSpec

namespace MetarSpec

/-- C2 (amended): once a field group's presence predicate holds, that
predicate is skipped for every later token, so the populated fields are
never changed again by further tokens (first dispatched occurrence wins).
The amendment: the claim's "equals the decode of the first token matching
the shape" additionally requires that that token actually reached the
predicate; an earlier predicate in the chain can claim a token that also
matches a later shape. -/
theorem c2_populated_fields_are_final (st : MetarState) (toks : List Tok) :
    (st.metarType.isSome = true → (runToks st toks).metarType = st.metarType) ∧
    (st.icao.isSome = true → (runToks st toks).icao = st.icao) ∧
    (st.minute.isSome = true → (runToks st toks).day = st.day ∧
      (runToks st toks).hour = st.hour ∧ (runToks st toks).minute = st.minute) ∧
    (st.windSpd.isSome = true → (runToks st toks).windDir = st.windDir ∧
      (runToks st toks).windSpd = st.windSpd ∧ (runToks st toks).gust = st.gust ∧
      (runToks st toks).windUnits = st.windUnits ∧ (runToks st toks).vrb = st.vrb) ∧
    (st.minWindDir.isSome = true → (runToks st toks).minWindDir = st.minWindDir ∧
      (runToks st toks).maxWindDir = st.maxWindDir) ∧
    ((st.vis.isSome = true ∨ st.cavok = true) → (runToks st toks).vis = st.vis ∧
      (runToks st toks).visUnits = st.visUnits ∧
      (runToks st toks).visLt = st.visLt ∧
      (runToks st toks).cavok = st.cavok) ∧
    (st.vertVis.isSome = true → (runToks st toks).vertVis = st.vertVis) ∧
    (st.temp.isSome = true → (runToks st toks).temp = st.temp ∧
      (runToks st toks).dew = st.dew) ∧
    (st.altimeterA.isSome = true → (runToks st toks).altimeterA = st.altimeterA) ∧
    (st.altimeterQ.isSome = true → (runToks st toks).altimeterQ = st.altimeterQ) ∧
    (st.slp.isSome = true → (runToks st toks).slp = st.slp) ∧
    (st.ftemp.isSome = true → (runToks st toks).ftemp = st.ftemp ∧
      (runToks st toks).fdew = st.fdew) := by
  obtain ⟨f1, f2, f3, f4, f5, f6, _, f8, f9, f10, f11, f12, f13⟩ :=
    runToks_frame toks st
  refine ⟨fun h => ?_, fun h => ?_, fun h => ?_, fun h => ?_, fun h => ?_,
    fun h => ?_, fun h => ?_, fun h => ?_, fun h => ?_, fun h => ?_,
    fun h => ?_, fun h => ?_⟩
  · exact f1.resolve_right (fun hn => by simp [hn] at h)
  · exact f2.resolve_right (fun hn => by simp [hn] at h)
  · exact f3.resolve_right (fun hn => by simp [hn] at h)
  · exact f4.resolve_right (fun hn => by simp [hn] at h)
  · exact f5.resolve_right (fun hn => by simp [hn] at h)
  · refine f6.resolve_right (fun hn => ?_)
    rcases h with h | h
    · simp [hn.1] at h
    · simp [hn.2] at h
  · exact f8.resolve_right (fun hn => by simp [hn] at h)
  · exact f9.resolve_right (fun hn => by simp [hn] at h)
  · exact f10.resolve_right (fun hn => by simp [hn] at h)
  · exact f11.resolve_right (fun hn => by simp [hn] at h)
  · exact f12.resolve_right (fun hn => by simp [hn] at h)
  · exact f13.resolve_right (fun hn => by simp [hn] at h)

/-- Counterexample to C2 as stated: "123456Z" and "25005KT" both match
the wind shape (five leading digits), yet the decoded wind speed comes
from the second token, because the observation-time predicate, earlier in
the chain, claims the first; decoding "123456Z" as a wind token would
give speed 456, not the decoded 5. -/
theorem c2_counterexample :
    is_wind "123456Z".data = true ∧ is_wind "25005KT".data = true ∧
    (parse_wind initState "123456Z".data).windSpd = some 456 ∧
    (parseMetar "123456Z 25005KT").windSpd = some 5 := by decide

/-- Witness for C2 (amended): with the temperature already populated, a
later temperature-shaped token leaves it unchanged. -/
theorem c2_witness :
    (runToks { initState with temp := some 9, dew := some 6 }
      ["18/12".data]).temp = some 9 := by
  have h := (c2_populated_fields_are_final
    { initState with temp := some 9, dew := some 6 } ["18/12".data]).2.2.2.2.2.2.2.1
  exact (h (by decide)).1

end MetarSpec

namespace MetarSpec

theorem parse_vis_sets (st : MetarState) (s : Tok) :
    ((parse_vis st s).vis = st.vis ∧ (parse_vis st s).cavok = true) ∨
    ((parse_vis st s).vis.isSome = true ∧ (parse_vis st s).cavok = st.cavok) := by
  simp only [parse_vis]
  repeat' split
  · exact Or.inl (by simp)
  · exact Or.inr (by simp)
  · exact Or.inr (by simp)
  · exact Or.inr (by simp)
  · exact Or.inr (by simp)

theorem step_vis_cavok_inv (st : MetarState) (el : Tok)
    (h : ¬(st.vis.isSome = true ∧ st.cavok = true)) :
    ¬((step st el).vis.isSome = true ∧ (step st el).cavok = true) := by
  rcases (step_frame st el).2.2.2.2.2.2.1 with ⟨hv, _, _, hk⟩ | ⟨hn, hc, _, hv, hk⟩
  · rw [hv, hk]; exact h
  · rw [hv, hk]
    rcases parse_vis_sets st el with ⟨pv, pk⟩ | ⟨pv, pk⟩
    · rw [pv, hn]
      rintro ⟨hny, _⟩
      simp at hny
    · rw [pk, hc]
      rintro ⟨_, hff⟩
      cases hff

theorem runToks_vis_cavok_inv (toks : List Tok) : ∀ st : MetarState,
    ¬(st.vis.isSome = true ∧ st.cavok = true) →
    ¬((runToks st toks).vis.isSome = true ∧ (runToks st toks).cavok = true) := by
  induction toks with
  | nil => intro st h; exact h
  | cons el rest ih =>
    intro st h
    exact ih (step st el) (step_vis_cavok_inv st el h)

/-- C8: visibility and the CAVOK flag are mutually exclusive.  From the
initial state no token list can make both present; once CAVOK is set,
later visibility-shaped tokens are skipped and visibility stays as it
was; once visibility is set, a later CAVOK token is skipped and the flag
keeps its value. -/
theorem c8_vis_cavok_exclusive :
    (∀ toks : List Tok, ¬((runToks initState toks).vis.isSome = true ∧
      (runToks initState toks).cavok = true)) ∧
    (∀ (st : MetarState) (toks : List Tok), st.cavok = true →
      (runToks st toks).vis = st.vis ∧ (runToks st toks).cavok = true) ∧
    (∀ (st : MetarState) (toks : List Tok), st.vis.isSome = true →
      (runToks st toks).cavok = st.cavok) := by
  refine ⟨fun toks => ?_, fun st toks h => ?_, fun st toks h => ?_⟩
  · exact runToks_vis_cavok_inv toks initState (by simp [initState])
  · have f6 := (runToks_frame toks st).2.2.2.2.2.1
    have hp := f6.resolve_right (fun hn => by rw [h] at hn; cases hn.2)
    exact ⟨hp.1, hp.2.2.2.trans h⟩
  · have f6 := (runToks_frame toks st).2.2.2.2.2.1
    have hp := f6.resolve_right (fun hn => by rw [hn.1] at h; cases h)
    exact hp.2.2.2

/-- Witness for C8: a meters-shaped token after CAVOK leaves visibility
absent, and a CAVOK token after a decoded visibility leaves the flag
false. -/
theorem c8_witness :
    (runToks { initState with cavok := true } ["1400".data]).vis = none ∧
    (runToks { initState with vis := some 10 } ["CAVOK".data]).cavok = false := by
  constructor
  · have h := c8_vis_cavok_exclusive.2.1 { initState with cavok := true }
      ["1400".data] rfl
    simpa using h.1
  · have h := c8_vis_cavok_exclusive.2.2 { initState with vis := some 10 }
      ["CAVOK".data] rfl
    simpa using h

end MetarSpec

namespace MetarSpec

theorem is_slp_shape {el : Tok} (h : is_slp el = true) :
    ∃ a b c, el = ['S', 'L', 'P', a, b, c] ∧ a.isDigit = true ∧
      b.isDigit = true ∧ c.isDigit = true := by
  rcases el with _ | ⟨x1, _ | ⟨x2, _ | ⟨x3, _ | ⟨a, _ | ⟨b, _ | ⟨c, r⟩⟩⟩⟩⟩⟩ <;>
    simp [is_slp, matchChars, matchChar, matchChars_nil_left] at h
  exact ⟨a, b, c, by simp [h.1.symm, h.2.1.symm, h.2.2.1.symm, h.2.2.2.2.2.2],
    h.2.2.2.1, h.2.2.2.2.1, h.2.2.2.2.2.1⟩

theorem slp_not_earlier {a b c : Char} (ha : a.isDigit = true)
    (hb : b.isDigit = true) (hc : c.isDigit = true) :
    is_metar ['S', 'L', 'P', a, b, c] = false ∧
    is_icao ['S', 'L', 'P', a, b, c] = false ∧
    is_ot ['S', 'L', 'P', a, b, c] = false ∧
    is_wind ['S', 'L', 'P', a, b, c] = false ∧
    is_wind_var ['S', 'L', 'P', a, b, c] = false ∧
    is_vis ['S', 'L', 'P', a, b, c] = false ∧
    is_cloud_layer ['S', 'L', 'P', a, b, c] = false ∧
    is_vert_vis ['S', 'L', 'P', a, b, c] = false ∧
    is_temp ['S', 'L', 'P', a, b, c] = false ∧
    is_altA ['S', 'L', 'P', a, b, c] = false ∧
    is_altQ ['S', 'L', 'P', a, b, c] = false := by
  have s1 := digit_beq (by decide : ('S' : Char).isDigit = false) ha
  have s2 := digit_beq (by decide : ('S' : Char).isDigit = false) hb
  have s3 := digit_beq (by decide : ('S' : Char).isDigit = false) hc
  simp [is_metar, is_icao, is_ot, is_wind, is_wind_var, is_vis, is_cloud_layer,
    is_vert_vis, is_temp, is_altA, is_altQ, matchChars, matchChar, matchPre,
    findSub, List.isPrefixOf, coverList, coverChars, matchChars_nil_left,
    s1, s2, s3]

theorem dispatch_slp_fires (st : MetarState) (el : Tok) (hn : st.slp = none)
    (hs : is_slp el = true) : dispatch st el = parse_slp st el := by
  obtain ⟨a, b, c, rfl, ha, hb, hc⟩ := is_slp_shape hs
  obtain ⟨e1, e2, e3, e4, e5, e6, e7, e8, e9, e10, e11⟩ := slp_not_earlier ha hb hc
  unfold dispatch
  rw [if_neg (by simp [e1]), if_neg (by simp [e2]), if_neg (by simp [e3]),
    if_neg (by simp [e4]), if_neg (by simp [e5]), if_neg (by simp [e6]),
    if_neg (by simp [e7]), if_neg (by simp [e8]), if_neg (by simp [e9]),
    if_neg (by simp [e10]), if_neg (by simp [e11]), if_pos (by simp [hn, hs])]

/-- C9: a token of SLP followed by three digits is recognized whenever
sea-level pressure is still absent, and decodes to the literal formula
value/10 + 1000 hectopascals with no below-1000 disambiguation (SLP177
gives 1017.7). -/
theorem c9_slp_formula (st : MetarState) (a b c : Char) (ha : a.isDigit = true)
    (hb : b.isDigit = true) (hc : c.isDigit = true) (hn : st.slp = none) :
    is_slp ['S', 'L', 'P', a, b, c] = true ∧
    (step st ['S', 'L', 'P', a, b, c]).slp =
      some (((100 * (a.toNat - 48) + 10 * (b.toNat - 48) + (c.toNat - 48) : ℕ) : ℚ)
        / 10 + 1000) := by
  have hs : is_slp ['S', 'L', 'P', a, b, c] = true := by
    simp [is_slp, matchChars, matchChar, ha, hb, hc]
  refine ⟨hs, ?_⟩
  have hd := dispatch_slp_fires st _ hn hs
  have hna : ¬(a = '-') := fun he => by rw [he] at ha; cases ha
  simp only [step, hd, parse_slp]
  simp [atof, leadDigits, List.takeWhile, ha, hb, hc, natOfDigits, hna]
  ring

/-- Witness for C9: SLP177 decodes to 1017.7 hPa. -/
theorem c9_witness :
    (step initState "SLP177".data).slp = some (10177 / 10) := by
  have h := (c9_slp_formula initState '1' '7' '7' (by decide) (by decide)
    (by decide) rfl).2
  rw [h]
  decide

end MetarSpec

namespace MetarSpec

theorem digit_ne_sym {x c : Char} (hx : x.isDigit = false) (hc : c.isDigit = true) :
    ¬(c = x) := fun h => digit_ne hx hc h.symm

theorem dispatch_temp_fires (st : MetarState) (el : Tok) (hn : st.temp = none)
    (e1 : is_metar el = false) (e2 : is_icao el = false) (e3 : is_ot el = false)
    (e4 : is_wind el = false) (e5 : is_wind_var el = false)
    (e6 : is_vis el = false) (e7 : is_cloud_layer el = false)
    (e8 : is_vert_vis el = false) (hs : is_temp el = true) :
    dispatch st el = parse_temp st el := by
  unfold dispatch
  rw [if_neg (by simp [e1]), if_neg (by simp [e2]), if_neg (by simp [e3]),
    if_neg (by simp [e4]), if_neg (by simp [e5]), if_neg (by simp [e6]),
    if_neg (by simp [e7]), if_neg (by simp [e8]), if_pos (by simp [hn, hs])]

theorem temp_token1_not_earlier {a b c d : Char} (ha : a.isDigit = true)
    (hb : b.isDigit = true) (hc : c.isDigit = true) (hd : d.isDigit = true) :
    is_metar [a, b, '/', c, d] = false ∧ is_icao [a, b, '/', c, d] = false ∧
    is_ot [a, b, '/', c, d] = false ∧ is_wind [a, b, '/', c, d] = false ∧
    is_wind_var [a, b, '/', c, d] = false ∧ is_vis [a, b, '/', c, d] = false ∧
    is_cloud_layer [a, b, '/', c, d] = false ∧
    is_vert_vis [a, b, '/', c, d] = false := by
  simp [is_metar, is_icao, is_ot, is_wind, is_wind_var, is_vis, is_cloud_layer,
    is_vert_vis, matchChars, matchChar, matchPre, findSub, List.isPrefixOf,
    coverList, coverChars, matchChars_nil_left, ha, hb, hc, hd,
    digit_beq (by decide : ('S' : Char).isDigit = false) ha,
    digit_beq (by decide : ('S' : Char).isDigit = false) hb,
    digit_beq (by decide : ('S' : Char).isDigit = false) hc,
    digit_beq (by decide : ('S' : Char).isDigit = false) hd,
    digit_ne (by decide : ('S' : Char).isDigit = false) ha,
    digit_ne (by decide : ('V' : Char).isDigit = false) ha,
    digit_ne (by decide : ('C' : Char).isDigit = false) ha,
    digit_ne (by decide : ('N' : Char).isDigit = false) ha,
    digit_ne (by decide : ('F' : Char).isDigit = false) ha,
    digit_ne (by decide : ('B' : Char).isDigit = false) ha,
    digit_ne (by decide : ('O' : Char).isDigit = false) ha,
    digit_ne_sym (by decide : ('M' : Char).isDigit = false) ha,
    digit_ne_sym (by decide : ('S' : Char).isDigit = false) ha,
    digit_ne_sym (by decide : ('C' : Char).isDigit = false) ha]

theorem temp_token2_not_earlier {a b c d : Char} (ha : a.isDigit = true) (hb : b.isDigit = true) (hc : c.isDigit = true) (hd : d.isDigit = true) :
    is_metar [a, b, '/', 'M', c, d] = false ∧ is_icao [a, b, '/', 'M', c, d] = false ∧
    is_ot [a, b, '/', 'M', c, d] = false ∧ is_wind [a, b, '/', 'M', c, d] = false ∧
    is_wind_var [a, b, '/', 'M', c, d] = false ∧ is_vis [a, b, '/', 'M', c, d] = false ∧
    is_cloud_layer [a, b, '/', 'M', c, d] = false ∧
    is_vert_vis [a, b, '/', 'M', c, d] = false := by
  simp [is_metar, is_icao, is_ot, is_wind, is_wind_var, is_vis, is_cloud_layer,
    is_vert_vis, matchChars, matchChar, matchPre, findSub, List.isPrefixOf,
    coverList, coverChars, matchChars_nil_left, ha, hb, hc, hd,
    digit_beq (by decide : ('S' : Char).isDigit = false) ha,
    digit_beq (by decide : ('S' : Char).isDigit = false) hb,
    digit_beq (by decide : ('S' : Char).isDigit = false) hc,
    digit_beq (by decide : ('S' : Char).isDigit = false) hd,
    digit_ne (by decide : ('S' : Char).isDigit = false) ha,
    digit_ne (by decide : ('V' : Char).isDigit = false) ha,
    digit_ne (by decide : ('C' : Char).isDigit = false) ha,
    digit_ne (by decide : ('N' : Char).isDigit = false) ha,
    digit_ne (by decide : ('F' : Char).isDigit = false) ha,
    digit_ne (by decide : ('B' : Char).isDigit = false) ha,
    digit_ne (by decide : ('O' : Char).isDigit = false) ha,
    digit_ne_sym (by decide : ('M' : Char).isDigit = false) ha,
    digit_ne_sym (by decide : ('S' : Char).isDigit = false) ha,
    digit_ne_sym (by decide : ('C' : Char).isDigit = false) ha,
    digit_ne (by decide : ('S' : Char).isDigit = false) hb,
    digit_ne (by decide : ('V' : Char).isDigit = false) hb,
    digit_ne (by decide : ('C' : Char).isDigit = false) hb,
    digit_ne (by decide : ('N' : Char).isDigit = false) hb,
    digit_ne (by decide : ('F' : Char).isDigit = false) hb,
    digit_ne (by decide : ('B' : Char).isDigit = false) hb,
    digit_ne (by decide : ('O' : Char).isDigit = false) hb,
    digit_ne_sym (by decide : ('M' : Char).isDigit = false) hb,
    digit_ne_sym (by decide : ('S' : Char).isDigit = false) hb,
    digit_ne_sym (by decide : ('C' : Char).isDigit = false) hb,
    digit_ne (by decide : ('S' : Char).isDigit = false) hc,
    digit_ne (by decide : ('V' : Char).isDigit = false) hc,
    digit_ne (by decide : ('C' : Char).isDigit = false) hc,
    digit_ne (by decide : ('N' : Char).isDigit = false) hc,
    digit_ne (by decide : ('F' : Char).isDigit = false) hc,
    digit_ne (by decide : ('B' : Char).isDigit = false) hc,
    digit_ne (by decide : ('O' : Char).isDigit = false) hc,
    digit_ne_sym (by decide : ('M' : Char).isDigit = false) hc,
    digit_ne_sym (by decide : ('S' : Char).isDigit = false) hc,
    digit_ne_sym (by decide : ('C' : Char).isDigit = false) hc,
    digit_ne (by decide : ('S' : Char).isDigit = false) hd,
    digit_ne (by decide : ('V' : Char).isDigit = false) hd,
    digit_ne (by decide : ('C' : Char).isDigit = false) hd,
    digit_ne (by decide : ('N' : Char).isDigit = false) hd,
    digit_ne (by decide : ('F' : Char).isDigit = false) hd,
    digit_ne (by decide : ('B' : Char).isDigit = false) hd,
    digit_ne (by decide : ('O' : Char).isDigit = false) hd,
    digit_ne_sym (by decide : ('M' : Char).isDigit = false) hd,
    digit_ne_sym (by decide : ('S' : Char).isDigit = false) hd,
    digit_ne_sym (by decide : ('C' : Char).isDigit = false) hd]

theorem temp_token3_not_earlier {a b c d : Char} (ha : a.isDigit = true) (hb : b.isDigit = true) (hc : c.isDigit = true) (hd : d.isDigit = true) :
    is_metar ['M', a, b, '/', 'M', c, d] = false ∧ is_icao ['M', a, b, '/', 'M', c, d] = false ∧
    is_ot ['M', a, b, '/', 'M', c, d] = false ∧ is_wind ['M', a, b, '/', 'M', c, d] = false ∧
    is_wind_var ['M', a, b, '/', 'M', c, d] = false ∧ is_vis ['M', a, b, '/', 'M', c, d] = false ∧
    is_cloud_layer ['M', a, b, '/', 'M', c, d] = false ∧
    is_vert_vis ['M', a, b, '/', 'M', c, d] = false := by
  simp [is_metar, is_icao, is_ot, is_wind, is_wind_var, is_vis, is_cloud_layer,
    is_vert_vis, matchChars, matchChar, matchPre, findSub, List.isPrefixOf,
    coverList, coverChars, matchChars_nil_left, ha, hb, hc, hd,
    digit_beq (by decide : ('S' : Char).isDigit = false) ha,
    digit_beq (by decide : ('S' : Char).isDigit = false) hb,
    digit_beq (by decide : ('S' : Char).isDigit = false) hc,
    digit_beq (by decide : ('S' : Char).isDigit = false) hd,
    digit_ne (by decide : ('S' : Char).isDigit = false) ha,
    digit_ne (by decide : ('V' : Char).isDigit = false) ha,
    digit_ne (by decide : ('C' : Char).isDigit = false) ha,
    digit_ne (by decide : ('N' : Char).isDigit = false) ha,
    digit_ne (by decide : ('F' : Char).isDigit = false) ha,
    digit_ne (by decide : ('B' : Char).isDigit = false) ha,
    digit_ne (by decide : ('O' : Char).isDigit = false) ha,
    digit_ne_sym (by decide : ('M' : Char).isDigit = false) ha,
    digit_ne_sym (by decide : ('S' : Char).isDigit = false) ha,
    digit_ne_sym (by decide : ('C' : Char).isDigit = false) ha,
    digit_ne (by decide : ('S' : Char).isDigit = false) hb,
    digit_ne (by decide : ('V' : Char).isDigit = false) hb,
    digit_ne (by decide : ('C' : Char).isDigit = false) hb,
    digit_ne (by decide : ('N' : Char).isDigit = false) hb,
    digit_ne (by decide : ('F' : Char).isDigit = false) hb,
    digit_ne (by decide : ('B' : Char).isDigit = false) hb,
    digit_ne (by decide : ('O' : Char).isDigit = false) hb,
    digit_ne_sym (by decide : ('M' : Char).isDigit = false) hb,
    digit_ne_sym (by decide : ('S' : Char).isDigit = false) hb,
    digit_ne_sym (by decide : ('C' : Char).isDigit = false) hb,
    digit_ne (by decide : ('S' : Char).isDigit = false) hc,
    digit_ne (by decide : ('V' : Char).isDigit = false) hc,
    digit_ne (by decide : ('C' : Char).isDigit = false) hc,
    digit_ne (by decide : ('N' : Char).isDigit = false) hc,
    digit_ne (by decide : ('F' : Char).isDigit = false) hc,
    digit_ne (by decide : ('B' : Char).isDigit = false) hc,
    digit_ne (by decide : ('O' : Char).isDigit = false) hc,
    digit_ne_sym (by decide : ('M' : Char).isDigit = false) hc,
    digit_ne_sym (by decide : ('S' : Char).isDigit = false) hc,
    digit_ne_sym (by decide : ('C' : Char).isDigit = false) hc,
    digit_ne (by decide : ('S' : Char).isDigit = false) hd,
    digit_ne (by decide : ('V' : Char).isDigit = false) hd,
    digit_ne (by decide : ('C' : Char).isDigit = false) hd,
    digit_ne (by decide : ('N' : Char).isDigit = false) hd,
    digit_ne (by decide : ('F' : Char).isDigit = false) hd,
    digit_ne (by decide : ('B' : Char).isDigit = false) hd,
    digit_ne (by decide : ('O' : Char).isDigit = false) hd,
    digit_ne_sym (by decide : ('M' : Char).isDigit = false) hd,
    digit_ne_sym (by decide : ('S' : Char).isDigit = false) hd,
    digit_ne_sym (by decide : ('C' : Char).isDigit = false) hd]

theorem temp_token4_not_earlier {a b : Char} (ha : a.isDigit = true) (hb : b.isDigit = true) :
    is_metar [a, b, '/'] = false ∧ is_icao [a, b, '/'] = false ∧
    is_ot [a, b, '/'] = false ∧ is_wind [a, b, '/'] = false ∧
    is_wind_var [a, b, '/'] = false ∧ is_vis [a, b, '/'] = false ∧
    is_cloud_layer [a, b, '/'] = false ∧
    is_vert_vis [a, b, '/'] = false := by
  simp [is_metar, is_icao, is_ot, is_wind, is_wind_var, is_vis, is_cloud_layer,
    is_vert_vis, matchChars, matchChar, matchPre, findSub, List.isPrefixOf,
    coverList, coverChars, matchChars_nil_left, ha, hb,
    digit_beq (by decide : ('S' : Char).isDigit = false) ha,
    digit_beq (by decide : ('S' : Char).isDigit = false) hb,
    digit_ne (by decide : ('S' : Char).isDigit = false) ha,
    digit_ne (by decide : ('V' : Char).isDigit = false) ha,
    digit_ne (by decide : ('C' : Char).isDigit = false) ha,
    digit_ne (by decide : ('N' : Char).isDigit = false) ha,
    digit_ne (by decide : ('F' : Char).isDigit = false) ha,
    digit_ne (by decide : ('B' : Char).isDigit = false) ha,
    digit_ne (by decide : ('O' : Char).isDigit = false) ha,
    digit_ne_sym (by decide : ('M' : Char).isDigit = false) ha,
    digit_ne_sym (by decide : ('S' : Char).isDigit = false) ha,
    digit_ne_sym (by decide : ('C' : Char).isDigit = false) ha,
    digit_ne (by decide : ('S' : Char).isDigit = false) hb,
    digit_ne (by decide : ('V' : Char).isDigit = false) hb,
    digit_ne (by decide : ('C' : Char).isDigit = false) hb,
    digit_ne (by decide : ('N' : Char).isDigit = false) hb,
    digit_ne (by decide : ('F' : Char).isDigit = false) hb,
    digit_ne (by decide : ('B' : Char).isDigit = false) hb,
    digit_ne (by decide : ('O' : Char).isDigit = false) hb,
    digit_ne_sym (by decide : ('M' : Char).isDigit = false) hb,
    digit_ne_sym (by decide : ('S' : Char).isDigit = false) hb,
    digit_ne_sym (by decide : ('C' : Char).isDigit = false) hb]

theorem temp_token5_not_earlier {a b : Char} (ha : a.isDigit = true) (hb : b.isDigit = true) :
    is_metar ['M', a, b, '/'] = false ∧ is_icao ['M', a, b, '/'] = false ∧
    is_ot ['M', a, b, '/'] = false ∧ is_wind ['M', a, b, '/'] = false ∧
    is_wind_var ['M', a, b, '/'] = false ∧ is_vis ['M', a, b, '/'] = false ∧
    is_cloud_layer ['M', a, b, '/'] = false ∧
    is_vert_vis ['M', a, b, '/'] = false := by
  simp [is_metar, is_icao, is_ot, is_wind, is_wind_var, is_vis, is_cloud_layer,
    is_vert_vis, matchChars, matchChar, matchPre, findSub, List.isPrefixOf,
    coverList, coverChars, matchChars_nil_left, ha, hb,
    digit_beq (by decide : ('S' : Char).isDigit = false) ha,
    digit_beq (by decide : ('S' : Char).isDigit = false) hb,
    digit_ne (by decide : ('S' : Char).isDigit = false) ha,
    digit_ne (by decide : ('V' : Char).isDigit = false) ha,
    digit_ne (by decide : ('C' : Char).isDigit = false) ha,
    digit_ne (by decide : ('N' : Char).isDigit = false) ha,
    digit_ne (by decide : ('F' : Char).isDigit = false) ha,
    digit_ne (by decide : ('B' : Char).isDigit = false) ha,
    digit_ne (by decide : ('O' : Char).isDigit = false) ha,
    digit_ne_sym (by decide : ('M' : Char).isDigit = false) ha,
    digit_ne_sym (by decide : ('S' : Char).isDigit = false) ha,
    digit_ne_sym (by decide : ('C' : Char).isDigit = false) ha,
    digit_ne (by decide : ('S' : Char).isDigit = false) hb,
    digit_ne (by decide : ('V' : Char).isDigit = false) hb,
    digit_ne (by decide : ('C' : Char).isDigit = false) hb,
    digit_ne (by decide : ('N' : Char).isDigit = false) hb,
    digit_ne (by decide : ('F' : Char).isDigit = false) hb,
    digit_ne (by decide : ('B' : Char).isDigit = false) hb,
    digit_ne (by decide : ('O' : Char).isDigit = false) hb,
    digit_ne_sym (by decide : ('M' : Char).isDigit = false) hb,
    digit_ne_sym (by decide : ('S' : Char).isDigit = false) hb,
    digit_ne_sym (by decide : ('C' : Char).isDigit = false) hb]

/-- C4 (amended): the temperature shapes the decoder recognizes are
exactly ##/##, ##/M##, M##/M##, ##/ and M##/; each decodes to the signed
left value as temperature and the signed right value as dew point, the
dew point untouched when the right side is empty.  The amendment: a token
with an M-prefixed left side and an unprefixed nonempty right side
(M##/##) is NOT recognized - that combination is missing from is_temp. -/
theorem c4_temp_decode (st : MetarState) (a b c d : Char)
    (ha : a.isDigit = true) (hb : b.isDigit = true) (hc : c.isDigit = true)
    (hd : d.isDigit = true) (hn : st.temp = none) :
    (is_temp [a, b, '/', c, d] = true ∧
      (step st [a, b, '/', c, d]).temp =
        some (((a.toNat - 48) * 10 + (b.toNat - 48) : ℕ) : ℤ) ∧
      (step st [a, b, '/', c, d]).dew =
        some (((c.toNat - 48) * 10 + (d.toNat - 48) : ℕ) : ℤ)) ∧
    (is_temp [a, b, '/', 'M', c, d] = true ∧
      (step st [a, b, '/', 'M', c, d]).temp =
        some (((a.toNat - 48) * 10 + (b.toNat - 48) : ℕ) : ℤ) ∧
      (step st [a, b, '/', 'M', c, d]).dew =
        some (-(((c.toNat - 48) * 10 + (d.toNat - 48) : ℕ) : ℤ))) ∧
    (is_temp ['M', a, b, '/', 'M', c, d] = true ∧
      (step st ['M', a, b, '/', 'M', c, d]).temp =
        some (-(((a.toNat - 48) * 10 + (b.toNat - 48) : ℕ) : ℤ)) ∧
      (step st ['M', a, b, '/', 'M', c, d]).dew =
        some (-(((c.toNat - 48) * 10 + (d.toNat - 48) : ℕ) : ℤ))) ∧
    (is_temp [a, b, '/'] = true ∧
      (step st [a, b, '/']).temp =
        some (((a.toNat - 48) * 10 + (b.toNat - 48) : ℕ) : ℤ) ∧
      (step st [a, b, '/']).dew = st.dew) ∧
    (is_temp ['M', a, b, '/'] = true ∧
      (step st ['M', a, b, '/']).temp =
        some (-(((a.toNat - 48) * 10 + (b.toNat - 48) : ℕ) : ℤ)) ∧
      (step st ['M', a, b, '/']).dew = st.dew) ∧
    is_temp ['M', a, b, '/', c, d] = false := by
  have slash_a := digit_beq (by decide : ('/' : Char).isDigit = false) ha
  have slash_b := digit_beq (by decide : ('/' : Char).isDigit = false) hb
  have slash_c := digit_beq (by decide : ('/' : Char).isDigit = false) hc
  have slash_d := digit_beq (by decide : ('/' : Char).isDigit = false) hd
  have m_a := digit_ne_sym (by decide : ('M' : Char).isDigit = false) ha
  have m_c := digit_ne_sym (by decide : ('M' : Char).isDigit = false) hc
  have neg_a := digit_ne_sym (by decide : ('-' : Char).isDigit = false) ha
  have neg_c := digit_ne_sym (by decide : ('-' : Char).isDigit = false) hc
  refine ⟨⟨?_, ?_, ?_⟩, ⟨?_, ?_, ?_⟩, ⟨?_, ?_, ?_⟩, ⟨?_, ?_, ?_⟩, ⟨?_, ?_, ?_⟩, ?_⟩
  case _ => simp [is_temp, matchChars, matchChar, ha, hb, hc, hd]
  case _ =>
    obtain ⟨e1, e2, e3, e4, e5, e6, e7, e8⟩ := temp_token1_not_earlier ha hb hc hd
    have hs : is_temp [a, b, '/', c, d] = true := by
      simp [is_temp, matchChars, matchChar, ha, hb, hc, hd]
    have hf := dispatch_temp_fires st _ hn e1 e2 e3 e4 e5 e6 e7 e8 hs
    simp [step, hf, parse_temp, findSub, List.isPrefixOf, slash_a, slash_b,
      tempVal, atoi, leadDigits, List.takeWhile, ha, hb, m_a, neg_a, natOfDigits]
  case _ =>
    obtain ⟨e1, e2, e3, e4, e5, e6, e7, e8⟩ := temp_token1_not_earlier ha hb hc hd
    have hs : is_temp [a, b, '/', c, d] = true := by
      simp [is_temp, matchChars, matchChar, ha, hb, hc, hd]
    have hf := dispatch_temp_fires st _ hn e1 e2 e3 e4 e5 e6 e7 e8 hs
    simp [step, hf, parse_temp, findSub, List.isPrefixOf, slash_a, slash_b,
      tempVal, atoi, leadDigits, List.takeWhile, hc, hd, m_c, neg_c, natOfDigits]
  case _ => simp [is_temp, matchChars, matchChar, ha, hb, hc, hd]
  case _ =>
    obtain ⟨e1, e2, e3, e4, e5, e6, e7, e8⟩ := temp_token2_not_earlier ha hb hc hd
    have hs : is_temp [a, b, '/', 'M', c, d] = true := by
      simp [is_temp, matchChars, matchChar, ha, hb, hc, hd]
    have hf := dispatch_temp_fires st _ hn e1 e2 e3 e4 e5 e6 e7 e8 hs
    simp [step, hf, parse_temp, findSub, List.isPrefixOf, slash_a, slash_b,
      tempVal, atoi, leadDigits, List.takeWhile, ha, hb, m_a, neg_a, natOfDigits]
  case _ =>
    obtain ⟨e1, e2, e3, e4, e5, e6, e7, e8⟩ := temp_token2_not_earlier ha hb hc hd
    have hs : is_temp [a, b, '/', 'M', c, d] = true := by
      simp [is_temp, matchChars, matchChar, ha, hb, hc, hd]
    have hf := dispatch_temp_fires st _ hn e1 e2 e3 e4 e5 e6 e7 e8 hs
    simp [step, hf, parse_temp, findSub, List.isPrefixOf, slash_a, slash_b,
      tempVal, atoi, leadDigits, List.takeWhile, hc, hd, natOfDigits]
  case _ => simp [is_temp, matchChars, matchChar, ha, hb, hc, hd]
  case _ =>
    obtain ⟨e1, e2, e3, e4, e5, e6, e7, e8⟩ := temp_token3_not_earlier ha hb hc hd
    have hs : is_temp ['M', a, b, '/', 'M', c, d] = true := by
      simp [is_temp, matchChars, matchChar, ha, hb, hc, hd]
    have hf := dispatch_temp_fires st _ hn e1 e2 e3 e4 e5 e6 e7 e8 hs
    simp [step, hf, parse_temp, findSub, List.isPrefixOf, slash_a, slash_b,
      tempVal, atoi, leadDigits, List.takeWhile, ha, hb, natOfDigits]
  case _ =>
    obtain ⟨e1, e2, e3, e4, e5, e6, e7, e8⟩ := temp_token3_not_earlier ha hb hc hd
    have hs : is_temp ['M', a, b, '/', 'M', c, d] = true := by
      simp [is_temp, matchChars, matchChar, ha, hb, hc, hd]
    have hf := dispatch_temp_fires st _ hn e1 e2 e3 e4 e5 e6 e7 e8 hs
    simp [step, hf, parse_temp, findSub, List.isPrefixOf, slash_a, slash_b,
      tempVal, atoi, leadDigits, List.takeWhile, hc, hd, natOfDigits]
  case _ => simp [is_temp, matchChars, matchChar, ha, hb]
  case _ =>
    obtain ⟨e1, e2, e3, e4, e5, e6, e7, e8⟩ := temp_token4_not_earlier ha hb
    have hs : is_temp [a, b, '/'] = true := by
      simp [is_temp, matchChars, matchChar, ha, hb]
    have hf := dispatch_temp_fires st _ hn e1 e2 e3 e4 e5 e6 e7 e8 hs
    simp [step, hf, parse_temp, findSub, List.isPrefixOf, slash_a, slash_b,
      tempVal, atoi, leadDigits, List.takeWhile, ha, hb, m_a, neg_a, natOfDigits]
  case _ =>
    obtain ⟨e1, e2, e3, e4, e5, e6, e7, e8⟩ := temp_token4_not_earlier ha hb
    have hs : is_temp [a, b, '/'] = true := by
      simp [is_temp, matchChars, matchChar, ha, hb]
    have hf := dispatch_temp_fires st _ hn e1 e2 e3 e4 e5 e6 e7 e8 hs
    simp [step, hf, parse_temp, findSub, List.isPrefixOf, slash_a, slash_b]
  case _ => simp [is_temp, matchChars, matchChar, ha, hb]
  case _ =>
    obtain ⟨e1, e2, e3, e4, e5, e6, e7, e8⟩ := temp_token5_not_earlier ha hb
    have hs : is_temp ['M', a, b, '/'] = true := by
      simp [is_temp, matchChars, matchChar, ha, hb]
    have hf := dispatch_temp_fires st _ hn e1 e2 e3 e4 e5 e6 e7 e8 hs
    simp [step, hf, parse_temp, findSub, List.isPrefixOf, slash_a, slash_b,
      tempVal, atoi, leadDigits, List.takeWhile, ha, hb, natOfDigits]
  case _ =>
    obtain ⟨e1, e2, e3, e4, e5, e6, e7, e8⟩ := temp_token5_not_earlier ha hb
    have hs : is_temp ['M', a, b, '/'] = true := by
      simp [is_temp, matchChars, matchChar, ha, hb]
    have hf := dispatch_temp_fires st _ hn e1 e2 e3 e4 e5 e6 e7 e8 hs
    simp [step, hf, parse_temp, findSub, List.isPrefixOf, slash_a, slash_b]
  case _ =>
    simp [is_temp, matchChars, matchChar, ha, hb, hc, hd,
      digit_ne_sym (by decide : ('M' : Char).isDigit = false) ha]

/-- Counterexample to C4 as stated: "M07/05" (M-prefixed left side,
unprefixed right side) matches none of the five is_temp shapes, so the
decoder leaves temperature and dew point absent instead of setting -7
and 5. -/
theorem c4_counterexample :
    is_temp "M07/05".data = false ∧ (parseMetar "M07/05").temp = none ∧
    (parseMetar "M07/05").dew = none := by decide

/-- Witness for C4 (amended): M14/M15 decodes to -14 and -15. -/
theorem c4_witness :
    (step initState ['M', '1', '4', '/', 'M', '1', '5']).temp = some (-14) ∧
    (step initState ['M', '1', '4', '/', 'M', '1', '5']).dew = some (-15) := by
  have h := (c4_temp_decode initState '1' '4' '1' '5' (by decide) (by decide)
    (by decide) (by decide) rfl).2.2.1
  refine ⟨?_, ?_⟩
  · rw [h.2.1]; decide
  · rw [h.2.2]; decide

end MetarSpec

namespace MetarSpec

theorem step_layers_le3 (st : MetarState) (el : Tok)
    (h : st.layers.length ≤ 3) : (step st el).layers.length ≤ 3 := by
  obtain ⟨L, hL, hlen, hd⟩ := (step_frame st el).2.2.2.2.2.2.2.1
  rcases hd with rfl | hlt
  · simp [hL, h]
  · rw [hL, List.length_append]
    omega

theorem step_layers_cap (st : MetarState) (el : Tok)
    (h : 3 ≤ st.layers.length) : (step st el).layers = st.layers := by
  obtain ⟨L, hL, hlen, hd⟩ := (step_frame st el).2.2.2.2.2.2.2.1
  rcases hd with rfl | hlt
  · simpa using hL
  · omega

theorem dispatch_cloud_fires (st : MetarState) (el : Tok)
    (hlen : st.layers.length < 3) (e1 : is_metar el = false)
    (e2 : is_icao el = false) (e3 : is_ot el = false)
    (e4 : is_wind el = false) (e5 : is_wind_var el = false)
    (e6 : is_vis el = false) (hs : is_cloud_layer el = true) :
    dispatch st el = parse_cloud_layer st el := by
  unfold dispatch
  rw [if_neg (by simp [e1]), if_neg (by simp [e2]), if_neg (by simp [e3]),
    if_neg (by simp [e4]), if_neg (by simp [e5]), if_neg (by simp [e6]),
    if_pos (by simp [hlen, hs])]

theorem runToks_layers_le3 (toks : List Tok) : ∀ st : MetarState,
    st.layers.length ≤ 3 → (runToks st toks).layers.length ≤ 3 := by
  induction toks with
  | nil => intro st h; exact h
  | cons el rest ih =>
    intro st h
    exact ih (step st el) (step_layers_le3 st el h)

/-- C3: the decoded report never holds more than three cloud layers;
layers are only appended at the tail (insertion order = report order); a
token reaching the cloud-layer entry with the cap already met leaves the
layers unchanged; and a cloud-shaped token that falls through the earlier
predicates is appended whenever fewer than three layers are present,
regardless of which fields are already populated. -/
theorem c3_cloud_layer_cap_and_order :
    (∀ toks : List Tok, (runToks initState toks).layers.length ≤ 3) ∧
    (∀ (st : MetarState) (toks : List Tok), ∃ L,
      (runToks st toks).layers = st.layers ++ L) ∧
    (∀ (st : MetarState) (el : Tok), 3 ≤ st.layers.length →
      (step st el).layers = st.layers) ∧
    (∀ (st : MetarState) (el : Tok), st.layers.length < 3 →
      is_metar el = false → is_icao el = false → is_ot el = false →
      is_wind el = false → is_wind_var el = false → is_vis el = false →
      is_cloud_layer el = true →
      ∃ c, matchPre (coverChars c) el = true ∧
        (step st el).layers = st.layers ++ [mkLayer c el]) := by
  refine ⟨fun toks => ?_, fun st toks => ?_, fun st el h => step_layers_cap st el h,
    fun st el hlen e1 e2 e3 e4 e5 e6 hs => ?_⟩
  · exact runToks_layers_le3 toks initState (by simp [initState])
  · obtain ⟨L, hL⟩ := (runToks_frame toks st).2.2.2.2.2.2.1
    exact ⟨L, hL⟩
  · have hd := dispatch_cloud_fires st el hlen e1 e2 e3 e4 e5 e6 hs
    rcases parse_cloud_layer_spec st el with ⟨hfalse, -⟩ | ⟨c, hm, hp⟩
    · rw [hfalse] at hs
      cases hs
    · exact ⟨c, hm, by simp [step, hd, hp]⟩

/-- Witness for C3: OVC015 is appended from the empty state, and four
layer tokens still leave at most three layers. -/
theorem c3_witness :
    (0 : ℕ) < 3 ∧
    (∃ c, matchPre (coverChars c) "OVC015".data = true ∧
      (step initState "OVC015".data).layers =
        initState.layers ++ [mkLayer c "OVC015".data]) ∧
    (runToks initState
      ["FEW004".data, "SCT010".data, "BKN020".data, "OVC030".data]).layers.length
      ≤ 3 := by
  refine ⟨by decide, ?_, c3_cloud_layer_cap_and_order.1 _⟩
  exact c3_cloud_layer_cap_and_order.2.2.2 initState "OVC015".data (by decide)
    (by decide) (by decide) (by decide) (by decide) (by decide) (by decide)
    (by decide)

end MetarSpec

namespace MetarSpec

theorem findSub_skip {x : Char} {xs : List Char} (l tail : List Char)
    (h : ∀ c ∈ l, (x == c) = false) :
    findSub (x :: xs) (l ++ tail) =
      (findSub (x :: xs) tail).map (· + l.length) := by
  induction l with
  | nil => simp [Option.map_id]
  | cons c cs ih =>
    have hx : (x == c) = false := h c (List.mem_cons_self c cs)
    rw [List.cons_append, findSub, if_neg (by simp [List.isPrefixOf, hx])]
    rw [ih (fun y hy => h y (List.mem_cons_of_mem c hy))]
    cases findSub (x :: xs) tail <;> simp
    omega

theorem leadDigits_all {l : List Char} (h : l.all Char.isDigit = true) :
    leadDigits l = l := by
  induction l with
  | nil => rfl
  | cons c cs ih =>
    simp only [List.all_cons, Bool.and_eq_true] at h
    simp [leadDigits, List.takeWhile_cons, h.1, ih h.2]
    exact fun x hx => (List.all_eq_true.mp h.2) x hx

theorem leadDigits_append_stop {l r : List Char} (h : l.all Char.isDigit = true)
    (hr : ∀ c, r.headD ' ' = c → c.isDigit = false) :
    leadDigits (l ++ r) = l := by
  induction l with
  | nil =>
    cases r with
    | nil => rfl
    | cons c cs =>
      simp only [List.nil_append]
      simp [leadDigits, List.takeWhile, hr c rfl]
  | cons c cs ih =>
    simp only [List.all_cons, Bool.and_eq_true] at h
    simp only [List.cons_append, leadDigits, List.takeWhile_cons, h.1,
      if_true]
    simpa [leadDigits] using ih h.2

theorem findSub_cons (pat : List Char) (c : Char) (rest : List Char) :
    findSub pat (c :: rest) =
      if pat.isPrefixOf (c :: rest) then some 0
      else (findSub pat rest).map (· + 1) := rfl

/-- C6: a fractional statute-mile token N/DSM decodes to the rational
N/D (the copies into the fixed buffer take one extra character each,
which atof ignores); a leading M additionally forces the less-than flag;
and the amount added on is the value of the previous token exactly when
that token is a bare single digit, zero otherwise (so "2" then "1/2SM"
gives 2.5).  D is required nonzero: at zero the C double division
produces infinity, outside this rational model. -/
theorem c6_fraction_visibility (st : MetarState) (N D : List Char)
    (hN : N.all Char.isDigit = true) (hN1 : 1 ≤ N.length)
    (hD : D.all Char.isDigit = true) (hD1 : 1 ≤ D.length)
    (hDpos : 0 < natOfDigits D) :
    ((parse_vis st (N ++ '/' :: (D ++ ['S', 'M']))).vis =
        some ((natOfDigits N : ℚ) / (natOfDigits D : ℚ) + prevFrac st) ∧
      (parse_vis st (N ++ '/' :: (D ++ ['S', 'M']))).visUnits =
        some DistUnit.SM ∧
      (parse_vis st (N ++ '/' :: (D ++ ['S', 'M']))).visLt = st.visLt) ∧
    ((parse_vis st ('M' :: (N ++ '/' :: (D ++ ['S', 'M'])))).vis =
        some ((natOfDigits N : ℚ) / (natOfDigits D : ℚ) + prevFrac st) ∧
      (parse_vis st ('M' :: (N ++ '/' :: (D ++ ['S', 'M'])))).visLt = true) ∧
    (∀ w : Char, w.isDigit = true → st.prev = some [w] →
      prevFrac st = ((w.toNat - 48 : ℕ) : ℚ)) ∧
    (∀ p : Tok, st.prev = some p → matchChars ['#'] p = false →
      prevFrac st = 0) := by
  obtain ⟨n0, N', rfl⟩ : ∃ n0 N', N = n0 :: N' := by
    cases N with
    | nil => simp at hN1
    | cons x xs => exact ⟨x, xs, rfl⟩
  obtain ⟨d0, D', rfl⟩ : ∃ d0 D', D = d0 :: D' := by
    cases D with
    | nil => simp at hD1
    | cons x xs => exact ⟨x, xs, rfl⟩
  set N := n0 :: N' with hNdef
  set D := d0 :: D' with hDdef
  have hn0 : n0.isDigit = true := by
    have := List.all_eq_true.mp hN n0 (by simp [hNdef])
    simpa using this
  have hd0 : d0.isDigit = true := by
    have := List.all_eq_true.mp hD d0 (by simp [hDdef])
    simpa using this
  have hSN : ∀ c ∈ N, (('S' : Char) == c) = false := fun c hc =>
    digit_beq (by decide) (List.all_eq_true.mp hN c hc)
  have hSD : ∀ c ∈ D, (('S' : Char) == c) = false := fun c hc =>
    digit_beq (by decide) (List.all_eq_true.mp hD c hc)
  have hslN : ∀ c ∈ N, (('/' : Char) == c) = false := fun c hc =>
    digit_beq (by decide) (List.all_eq_true.mp hN c hc)
  -- position of the statute-mile marker
  have hfSM : findSub ['S', 'M'] (N ++ '/' :: (D ++ ['S', 'M'])) =
      some (D.length + 1 + N.length) := by
    rw [findSub_skip N _ hSN]
    rw [findSub_cons, if_neg (by simp [List.isPrefixOf])]
    rw [findSub_skip D _ hSD]
    simp [findSub_cons, List.isPrefixOf, findSub]
  -- position of the slash
  have hfSl : findSub ['/'] (N ++ '/' :: (D ++ ['S', 'M'])) =
      some N.length := by
    rw [findSub_skip N _ hslN]
    rw [findSub_cons, if_pos (by simp [List.isPrefixOf])]
    simp
  have hCAV : ¬(N ++ '/' :: (D ++ ['S', 'M'])) = "CAVOK".data := by
    intro he
    have hm : '/' ∈ N ++ '/' :: (D ++ ['S', 'M']) := by
      exact List.mem_append_right _ (List.mem_cons_self _ _)
    rw [he] at hm
    simp at hm
  have hhead : (N ++ '/' :: (D ++ ['S', 'M'])).headD ' ' = n0 := by
    simp [hNdef]
  have hnM : ¬(n0 = 'M') := digit_ne_sym (by decide) hn0
  have hnDash : ¬(n0 = '-') := digit_ne_sym (by decide) hn0
  have hdDash : ¬(d0 = '-') := digit_ne_sym (by decide) hd0
  have htake : (N ++ '/' :: (D ++ ['S', 'M'])).take N.length = N :=
    List.take_left N _
  have hdrop : (N ++ '/' :: (D ++ ['S', 'M'])).drop (N.length + 1) =
      D ++ ['S', 'M'] := by
    rw [show N ++ '/' :: (D ++ ['S', 'M']) = (N ++ ['/']) ++ (D ++ ['S', 'M'])
      by simp]
    rw [show N.length + 1 = (N ++ ['/']).length by simp]
    exact List.drop_left _ _
  have hden : (D ++ ['S', 'M']).take (D.length + 1 + N.length - N.length) =
      D ++ ['S'] := by
    rw [show D.length + 1 + N.length - N.length = D.length + 1 by omega]
    rw [List.take_append 1]
    rfl
  have hhead2 : (N.head?.or (some '/')).getD ' ' = n0 := by simp [hNdef]
  have hden2 : List.take (D.length + 1) (D ++ ['S', 'M']) = D ++ ['S'] := by
    rw [List.take_append 1]
    rfl
  have hatofN : atof N = (natOfDigits N : ℚ) := by
    rw [atof, if_neg (by simp [hNdef, hnDash]), leadDigits_all hN]
  have hatofD : atof (D ++ ['S']) = (natOfDigits D : ℚ) := by
    rw [atof, if_neg (by simp [hDdef, hdDash])]
    rw [leadDigits_append_stop hD (fun c hc => by rw [← hc]; decide)]
  refine ⟨?_, ?_, ?_, ?_⟩
  · rw [parse_vis, if_neg hCAV]
    simp [hfSM, hfSl, hhead, hhead2, hnM, htake, hdrop, hden, hden2,
      hatofN, hatofD]
  · have hfSM2 : findSub ['S', 'M'] ('M' :: (N ++ '/' :: (D ++ ['S', 'M']))) =
        some (D.length + 1 + N.length + 1) := by
      rw [findSub_cons, if_neg (by simp [List.isPrefixOf]), hfSM]
      rfl
    have hfSl2 : findSub ['/'] ('M' :: (N ++ '/' :: (D ++ ['S', 'M']))) =
        some (N.length + 1) := by
      rw [findSub_cons, if_neg (by simp [List.isPrefixOf]), hfSl]
      rfl
    have hnum2 : List.take (N.length + 1) (N ++ '/' :: (D ++ ['S', 'M'])) =
        N ++ ['/'] := by
      rw [List.take_append 1]
      rfl
    have hatofN2 : atof (N ++ ['/']) = (natOfDigits N : ℚ) := by
      rw [atof, if_neg (by simp [hNdef, hnDash])]
      rw [leadDigits_append_stop hN (fun c hc => by rw [← hc]; decide)]
    have hdrop2 : List.drop (N.length + 1 + 1)
        ('M' :: (N ++ '/' :: (D ++ ['S', 'M']))) = D ++ ['S', 'M'] := by
      rw [show N.length + 1 + 1 = (N.length + 1) + 1 by omega]
      rw [List.drop_succ_cons]
      exact hdrop
    have harith : D.length + 1 + N.length + 1 - (N.length + 1) =
        D.length + 1 := by omega
    rw [parse_vis, if_neg (by intro he; rw [show "CAVOK".data =
      ['C', 'A', 'V', 'O', 'K'] from rfl] at he; simp at he)]
    simp [hfSM2, hfSl2, hnum2, hatofN2, hdrop2, harith, hden2, hatofD]
  · intro w hw hp
    have hwD : ¬(w = '-') := digit_ne_sym (by decide) hw
    simp [prevFrac, hp, matchChars, matchChar, hw, atof, hwD, leadDigits,
      List.takeWhile_cons, natOfDigits]
  · intro p hp hm
    simp [prevFrac, hp, hm]

/-- Witness for C6: the two-token sequence "2", "1/2SM" decodes to 2.5
statute miles, and M1/4SM to a quarter mile with the less-than flag. -/
theorem c6_witness :
    (parse_vis (step initState ['2']) ['1', '/', '2', 'S', 'M']).vis =
      some (5 / 2) ∧
    (parseMetar "2 1/2SM").vis = some (5 / 2) ∧
    (parseMetar "M1/4SM").vis = some (1 / 4) ∧
    (parseMetar "M1/4SM").visLt = true := by
  refine ⟨?_, by decide, by decide, by decide⟩
  have h := (c6_fraction_visibility (step initState ['2']) ['1'] ['2']
    (by decide) (by decide) (by decide) (by decide) (by decide)).1.1
  rw [show (['1'] ++ '/' :: (['2'] ++ ['S', 'M'])) =
    ['1', '/', '2', 'S', 'M'] from rfl] at h
  rw [h]
  decide

/-- C7 (phenomena decoder modelled from the spec, its implementation not
being under src): the combination token RASN yields exactly one
occurrence, the synthesized SLEET at NORMAL intensity with no
qualifiers - not separate RAIN and SNOW occurrences. -/
theorem c7_rasn_single_sleet :
    phenomDecode "RASN".data =
      [{ kind := PhenomKind.SLEET, inten := Intensity.NORMAL,
         quals := noQuals }] := by
  decide

end MetarSpec
